import Mathlib

/-!
Verification development for the facet-owned-shape repository: a shallow
embedding of its owned shape model (owned_shape.rs), structural differ
(diff.rs), shape-to-schema compiler (conversion.rs), migration renderer
(sea_query.rs) and DDL renderer (lib.rs), together with theorems settling
the specification claims.
-/

namespace FacetOwnedShape

set_option maxHeartbeats 1000000

/-! ### Owned shape model, from src/owned_shape.rs -/

mutual

/-- Embedding of OwnedShape: type_identifier, def (boxed) and ty (boxed). -/
inductive OwnedShape : Type where
| mk (type_identifier : String) (definition : OwnedDef) (ty : OwnedType)

/-- Embedding of OwnedDef, the container classifier. -/
inductive OwnedDef : Type where
| Undefined
| Scalar
| Map (k : OwnedShape) (v : OwnedShape)
| Set (t : OwnedShape)
| List (t : OwnedShape)
| Array (t : OwnedShape) (n : Nat)
| Option (t : OwnedShape)

/-- Embedding of OwnedType, the payload classifier. -/
inductive OwnedType : Type where
| Primitive (p : OwnedPrimitiveType)
| Sequence (t : OwnedShape)
| User (u : OwnedUserType)

/-- Embedding of OwnedPrimitiveType. -/
inductive OwnedPrimitiveType : Type where
| Boolean
| Numeric (n : OwnedNumericType)
| Textual (t : OwnedTextualType)
| Never

/-- Embedding of OwnedNumericType. -/
inductive OwnedNumericType : Type where
| Integer (signed : Bool)
| Float

/-- Embedding of OwnedTextualType. -/
inductive OwnedTextualType : Type where
| Char
| Str

/-- Embedding of OwnedUserType. -/
inductive OwnedUserType : Type where
| Struct (fields : List OwnedField)
| Enum (variants : List OwnedVariant)
| Union (fields : List OwnedField)
| Opaque

/-- Embedding of OwnedField: name, shape, doc strings. -/
inductive OwnedField : Type where
| mk (name : String) (shape : OwnedShape) (doc : List String)

/-- Embedding of OwnedVariant: name, data fields (OwnedStructType inlined
as its field list), doc strings. -/
inductive OwnedVariant : Type where
| mk (name : String) (data : List OwnedField) (doc : List String)

end

/-- Projection for the type identifier of an owned shape. -/
def OwnedShape.type_identifier : OwnedShape → String
| .mk i _ _ => i

/-- Projection for the def of an owned shape. -/
def OwnedShape.definition : OwnedShape → OwnedDef
| .mk _ d _ => d

/-- Projection for the ty of an owned shape. -/
def OwnedShape.ty : OwnedShape → OwnedType
| .mk _ _ t => t

/-- Projection for the name of an owned field. -/
def OwnedField.name : OwnedField → String
| .mk n _ _ => n

/-- Projection for the shape of an owned field. -/
def OwnedField.shape : OwnedField → OwnedShape
| .mk _ s _ => s

/-- Projection for the name of an owned variant. -/
def OwnedVariant.name : OwnedVariant → String
| .mk n _ _ => n

/-- Projection for the data fields of an owned variant. -/
def OwnedVariant.data : OwnedVariant → List OwnedField
| .mk _ d _ => d

/-- Debug formatting of OwnedPrimitiveType, mirroring the derived Rust
Debug output that types_equal compares. -/
def debugPrimitive : OwnedPrimitiveType → String
| .Boolean => "Boolean"
| .Numeric (.Integer true) => "Numeric(Integer { signed: true })"
| .Numeric (.Integer false) => "Numeric(Integer { signed: false })"
| .Numeric .Float => "Numeric(Float)"
| .Textual .Char => "Textual(Char)"
| .Textual .Str => "Textual(Str)"
| .Never => "Never"

mutual

/-- Embedding of shapes_equal from src/diff.rs: identifier, def, ty. -/
def shapes_equal : OwnedShape → OwnedShape → Bool
| .mk i1 d1 t1, .mk i2 d2 t2 =>
  if i1 != i2 then false
  else if !defs_equal d1 d2 then false
  else types_equal t1 t2
termination_by structural a b => a

/-- Embedding of defs_equal from src/diff.rs. -/
def defs_equal : OwnedDef → OwnedDef → Bool
| .Undefined, .Undefined => true
| .Scalar, .Scalar => true
| .Map ak av, .Map bk bv => shapes_equal ak bk && shapes_equal av bv
| .Set a, .Set b => shapes_equal a b
| .List a, .List b => shapes_equal a b
| .Array a an, .Array b bn => (an == bn) && shapes_equal a b
| .Option a, .Option b => shapes_equal a b
| _, _ => false
termination_by structural a b => a

/-- Embedding of types_equal from src/diff.rs; primitives are compared by
their Debug format strings, structs, enums and unions positionally. -/
def types_equal : OwnedType → OwnedType → Bool
| .Primitive a, .Primitive b => debugPrimitive a == debugPrimitive b
| .Sequence a, .Sequence b => shapes_equal a b
| .User (.Struct af), .User (.Struct bf) =>
  if af.length != bf.length then false else fields_zip_equal af bf
| .User (.Enum av), .User (.Enum bv) =>
  if av.length != bv.length then false else variants_zip_equal av bv
| .User (.Union af), .User (.Union bf) =>
  if af.length != bf.length then false else fields_zip_equal af bf
| .User .Opaque, .User .Opaque => true
| _, _ => false
termination_by structural a b => a

/-- Positional field-list comparison used by types_equal: names and shapes
of fields at the same index must match. -/
def fields_zip_equal : List OwnedField → List OwnedField → Bool
| [], _ => true
| _ :: _, [] => true
| .mk an ash _ :: as_, .mk bn bsh _ :: bs =>
  (an == bn && shapes_equal ash bsh) && fields_zip_equal as_ bs
termination_by structural a b => a

/-- Positional variant-list comparison used by types_equal. -/
def variants_zip_equal : List OwnedVariant → List OwnedVariant → Bool
| [], _ => true
| _ :: _, [] => true
| .mk an ad _ :: as_, .mk bn bd _ :: bs =>
  (an == bn && ad.length == bd.length && fields_zip_equal ad bd)
  && variants_zip_equal as_ bs
termination_by structural a b => a

end

/-! ### Structural differ, from src/diff.rs -/

mutual

/-- Embedding of Diff from src/diff.rs; the two shape arguments of
Different, User and Sequence are the from and to shapes, in that order. -/
inductive Diff : Type where
| Equal
| Different (a : OwnedShape) (b : OwnedShape)
| User (a : OwnedShape) (b : OwnedShape) (value : Value)
| Sequence (a : OwnedShape) (b : OwnedShape)

/-- Embedding of Value from src/diff.rs; the hash map of updates and the
hash sets of deletions, insertions and unchanged names are modelled as
lists in the deterministic order the differ inserts into them. -/
inductive Value : Type where
| Struct (updates : List (String × Diff)) (deletions : List String)
    (insertions : List String) (unchanged : List String)

end

/-- Embedding of Diff::is_equal. -/
def Diff.is_equal : Diff → Bool
| .Equal => true
| _ => false

/-- Name-keyed field lookup mirroring the HashMap the differ builds from
the to-struct (collect overwrites on duplicate keys, so the last field
with a given name wins). -/
def lookupByName (fields : List OwnedField) (n : String) : Option OwnedField :=
  fields.foldl (fun acc f => if f.name == n then some f else acc) none

mutual

/-- Embedding of Diff::new from src/diff.rs. -/
def Diff.new (a b : OwnedShape) : Diff :=
  if shapes_equal a b then .Equal
  else
    match a, b with
    | .mk _ _ (.User (.Struct afs)), .mk _ _ (.User (.Struct bfs)) =>
      let r := diffFromLoop bfs afs
      let ins := (bfs.filter
        (fun f => !(afs.any (fun g => g.name == f.name)))).map (·.name)
      .User a b (.Struct r.1 r.2.1 ins r.2.2)
    | .mk _ _ (.User (.Enum _)), .mk _ _ (.User (.Enum _)) => .Different a b
    | .mk _ _ (.Sequence _), .mk _ _ (.Sequence _) => .Sequence a b
    | _, _ => .Different a b
termination_by structural a

/-- Loop of Diff::new over the from-struct fields, producing the updates,
deletions and unchanged collections in iteration order. -/
def diffFromLoop (toFields : List OwnedField) :
    List OwnedField → List (String × Diff) × List String × List String
| [] => ([], [], [])
| .mk n sh _ :: rest =>
  let r := diffFromLoop toFields rest
  match lookupByName toFields n with
  | some tf =>
    let d := Diff.new sh tf.shape
    if d.is_equal then (r.1, r.2.1, n :: r.2.2)
    else ((n, d) :: r.1, r.2.1, r.2.2)
  | none => (r.1, n :: r.2.1, r.2.2)
termination_by structural l => l

end

/-! ### Migration renderer, from src/sea_query.rs -/

/-- Embedding of unwrap_option_type from src/sea_query.rs: strips Option
def wrappers recursively. -/
def unwrap_option_type : OwnedShape → OwnedShape
| .mk _ (.Option t) _ => unwrap_option_type t
| s => s
termination_by structural s => s

/-- Embedding of is_compatible_type_change from src/sea_query.rs. The
source returns Result but every arm is Ok, so the embedding returns the
boolean directly. -/
def is_compatible_type_change : Diff → Bool
| .Different f t =>
  let fi := unwrap_option_type f
  let ti := unwrap_option_type t
  match fi.ty, ti.ty with
  | .Primitive fp, .Primitive tp =>
    match fp, tp with
    | .Numeric _, .Numeric _ => true
    | .Numeric _, .Textual _ => true
    | .Textual _, .Numeric _ => true
    | .Textual _, .Textual _ => true
    | _, _ => false
  | .User .Opaque, .Primitive (.Numeric _) => fi.type_identifier == "String"
  | .Primitive (.Numeric _), .User .Opaque => ti.type_identifier == "String"
  | _, _ => false
| _ => true

/-- Column types a sea_query ColumnDef can be given by
set_column_type_from_shape. -/
inductive SeaColType : Type where
| TinyInteger
| SmallInteger
| IntegerCol
| BigInteger
| FloatCol
| DoubleCol
| CharLen (n : Nat)
| StringCol
| BooleanCol

/-- Shallow debug description of an owned type, used only inside error
message strings. -/
def debugOwnedType : OwnedType → String
| .Primitive p => "Primitive(" ++ debugPrimitive p ++ ")"
| .Sequence _ => "Sequence"
| .User (.Struct _) => "User(Struct)"
| .User (.Enum _) => "User(Enum)"
| .User (.Union _) => "User(Union)"
| .User .Opaque => "User(Opaque)"

/-- Embedding of set_column_type_from_shape from src/sea_query.rs: one
level of Option def is unwrapped, then the inner type and identifier pick
the sea_query column type. -/
def set_column_type_from_shape (s : OwnedShape) : Except String SeaColType :=
  let inner := match s.definition with
    | .Option t => t
    | _ => s
  match inner.ty with
  | .Primitive p =>
    match p with
    | .Boolean => .ok .BooleanCol
    | .Numeric (.Integer _) =>
      match inner.type_identifier with
      | "u8" => .ok .TinyInteger
      | "i8" => .ok .TinyInteger
      | "u16" => .ok .SmallInteger
      | "i16" => .ok .SmallInteger
      | "u32" => .ok .IntegerCol
      | "i32" => .ok .IntegerCol
      | "u64" => .ok .BigInteger
      | "i64" => .ok .BigInteger
      | "usize" => .ok .BigInteger
      | "isize" => .ok .BigInteger
      | _ => .ok .IntegerCol
    | .Numeric .Float =>
      match inner.type_identifier with
      | "f32" => .ok .FloatCol
      | "f64" => .ok .DoubleCol
      | _ => .ok .DoubleCol
    | .Textual .Char => .ok (.CharLen 1)
    | .Textual .Str => .ok .StringCol
    | .Never => .error "Never type not supported in SQL"
  | .User (.Enum _) => .ok .StringCol
  | .User .Opaque =>
    match inner.type_identifier with
    | "String" => .ok .StringCol
    | "str" => .ok .StringCol
    | _ => .error ("Unsupported Opaque type for SQL column: "
        ++ inner.type_identifier)
  | _ => .error ("Unsupported type for SQL column: " ++ debugOwnedType inner.ty
      ++ " (ID: " ++ inner.type_identifier ++ ")")

/-- Column definition accumulated into a sea_query alter statement: name,
nullability and column type. -/
structure ColDef : Type where
  name : String
  nullable : Bool
  ctype : SeaColType

/-- Embedding of the sea_query TableAlterStatement the renderer builds:
add, modify and drop options in the order the loops push them. -/
structure AlterStatement : Type where
  table : String
  add_columns : List ColDef
  modify_columns : List ColDef
  drop_columns : List String

/-- Builds the ColumnDef for a field the way the renderer does: nullable
iff the field shape's def is Option, type from
set_column_type_from_shape. -/
def mkColDef (f : OwnedField) : Except String ColDef := do
  let nullable := match f.shape.definition with
    | .Option _ => true
    | _ => false
  let t ← set_column_type_from_shape f.shape
  return { name := f.name, nullable := nullable, ctype := t }

/-- Insertion loop of the alter renderer: each inserted name is looked up
in the to-struct fields and turned into an added column. -/
def processInserts (fields : List OwnedField) :
    List String → Except String (List ColDef)
| [] => .ok []
| n :: rest => do
  match fields.find? (fun f => f.name == n) with
  | none => .error ("Field '" ++ n ++ "' not found in 'to' struct")
  | some f =>
    let c ← mkColDef f
    let cs ← processInserts fields rest
    return c :: cs

/-- Update loop of the alter renderer: each updated field is looked up,
its diff checked for compatibility, and turned into a modified column. -/
def processUpdates (fields : List OwnedField) :
    List (String × Diff) → Except String (List ColDef)
| [] => .ok []
| (n, d) :: rest => do
  match fields.find? (fun f => f.name == n) with
  | none => .error ("Field '" ++ n ++ "' not found in 'to' struct")
  | some f =>
    if !is_compatible_type_change d then
      .error ("Incompatible type change for field '" ++ n
        ++ "'. Only conversions between numbers and strings are supported")
    else do
      let c ← mkColDef f
      let cs ← processUpdates fields rest
      return c :: cs

/-- Embedding of the TryFrom Diff for TableAlterStatement impl from
src/sea_query.rs. -/
def renderAlter : Diff → Except String AlterStatement
| .Equal =>
  .error "Cannot create ALTER TABLE from Equal diff - no changes needed"
| .Different _ _ =>
  .error "Cannot create ALTER TABLE from Different diff - shapes are incompatible"
| .Sequence _ _ =>
  .error "Cannot create ALTER TABLE from Sequence diff - only struct diffs are supported"
| .User _ b (.Struct updates deletions insertions _) => do
  match b.ty with
  | .User (.Struct bfs) =>
    let adds ← processInserts bfs insertions
    let mods ← processUpdates bfs updates
    if insertions.isEmpty && deletions.isEmpty && updates.isEmpty then
      .error "No column changes found"
    else
      .ok { table := b.type_identifier, add_columns := adds,
            modify_columns := mods, drop_columns := deletions }
  | _ => .error "Expected 'to' shape to be a struct"

/-! ### Relational schema model, from src/lib.rs -/

/-- Embedding of the DataType enum from src/lib.rs. -/
inductive DataType : Type where
| Boolean
| SmallInt
| Integer
| BigInt
| Real
| DoublePrecision
| Numeric (precision : Option Nat) (scale : Option Nat)
| Serial
| BigSerial
| Text
| Varchar (n : Option Nat)
| Char (n : Option Nat)
| Bytea
| Timestamp (with_time_zone : Bool)
| Date
| Time (with_time_zone : Bool)
| Interval
| Json
| Jsonb
| Uuid
| Inet
| MacAddr
| TsVector
| Array (inner : DataType)
| Enum (schema : Option String) (name : String)
| Composite (schema : Option String) (name : String)
| Domain (schema : Option String) (name : String)
| Custom (schema : Option String) (name : String)
| Any
| Unknown
deriving DecidableEq

/-- Embedding of IdentityGeneration. -/
inductive IdentityGeneration : Type where
| Always
| ByDefault
deriving DecidableEq

/-- Embedding of Deferrability. -/
inductive Deferrability : Type where
| Deferrable
| NotDeferrable
deriving DecidableEq

/-- Embedding of Initially. -/
inductive Initially : Type where
| Deferred
| Immediate
deriving DecidableEq

/-- Embedding of MatchType. -/
inductive MatchType : Type where
| Simple
| Full
| Partial
deriving DecidableEq

/-- Embedding of ReferentialAction. -/
inductive ReferentialAction : Type where
| NoAction
| Restrict
| Cascade
| SetNull
| SetDefault
deriving DecidableEq

/-- Embedding of SortOrder. -/
inductive SortOrder : Type where
| Asc
| Desc
deriving DecidableEq

/-- Embedding of NullsOrder. -/
inductive NullsOrder : Type where
| First
| Last
deriving DecidableEq

/-- Embedding of IndexExpr. -/
inductive IndexExpr : Type where
| Column (name : String)
| Expression (e : String)
deriving DecidableEq

/-- Embedding of ViewCheckOption. -/
inductive ViewCheckOption : Type where
| Local
| Cascaded
deriving DecidableEq

/-- Embedding of FunctionVolatility. -/
inductive FunctionVolatility : Type where
| Immutable
| Stable
| Volatile
deriving DecidableEq

/-- Embedding of Privileges; the grants HashMap is modelled as an
association list. -/
structure Privileges : Type where
  owner : Option String
  grants : List (String × List String)
deriving DecidableEq

/-- Embedding of QualifiedName. -/
structure QualifiedName : Type where
  schema : Option String
  name : String
deriving DecidableEq

/-- Embedding of QualifiedName::to_string. -/
def QualifiedName.render (q : QualifiedName) : String :=
  match q.schema with
  | some s => s ++ "." ++ q.name
  | none => q.name

/-- Embedding of QualifiedColumn. -/
structure QualifiedColumn : Type where
  schema : Option String
  table : String
  column : String
deriving DecidableEq

/-- Embedding of the Column struct from src/lib.rs. -/
structure Column : Type where
  name : String
  data_type : DataType
  default : Option String
  nullable : Bool
  collation : Option String
  is_generated : Bool
  generation_expression : Option String
  is_identity : Bool
  identity_generation : Option IdentityGeneration
  comment : Option String
  privileges : Option Privileges
deriving DecidableEq

/-- Embedding of PrimaryKey; the source field named using is rendered
here as using_cl because its name is reserved in Lean. -/
structure PrimaryKey : Type where
  name : Option String
  columns : List String
  deferrable : Option Deferrability
  using_cl : Option String
deriving DecidableEq

/-- Embedding of UniqueConstraint. -/
structure UniqueConstraint : Type where
  name : Option String
  columns : List String
  deferrable : Option Deferrability
deriving DecidableEq

/-- Embedding of ForeignKey. -/
structure ForeignKey : Type where
  name : Option String
  columns : List String
  referenced_table : QualifiedName
  referenced_columns : Option (List String)
  on_delete : Option ReferentialAction
  on_update : Option ReferentialAction
  match_type : Option MatchType
  deferrable : Option Deferrability
  initially : Option Initially
deriving DecidableEq

/-- Embedding of CheckConstraint. -/
structure CheckConstraint : Type where
  name : Option String
  expression : String
  no_inherit : Bool
deriving DecidableEq

/-- Embedding of IndexColumn. -/
structure IndexColumn : Type where
  expr : IndexExpr
  collate : Option String
  opclass : Option String
  order : Option SortOrder
  nulls_order : Option NullsOrder
deriving DecidableEq

/-- Embedding of Index. -/
structure Index : Type where
  name : String
  columns : List IndexColumn
  unique : Bool
  method : Option String
  predicate : Option String
  include_cols : List String
  tablespace : Option String
  concurrently : Bool
  is_primary : Bool
  is_valid : Bool
deriving DecidableEq

/-- Embedding of Sequence from src/lib.rs. -/
structure Sequence : Type where
  name : String
  schema : Option String
  owned_by : Option QualifiedColumn
  start : Option Int
  increment : Option Int
  min_value : Option Int
  max_value : Option Int
  cache : Option Int
  cycle : Bool
  comment : Option String
deriving DecidableEq

/-- Embedding of EnumType from src/lib.rs. -/
structure EnumType : Type where
  schema : Option String
  name : String
  variants : List String
  comment : Option String
deriving DecidableEq

/-- Embedding of DomainType. -/
structure DomainType : Type where
  schema : Option String
  name : String
  base_type : DataType
  default : Option String
  not_null : Bool
  constraints : List CheckConstraint
  comment : Option String
deriving DecidableEq

/-- Embedding of CompositeType. -/
structure CompositeType : Type where
  schema : Option String
  name : String
  fields : List Column
  comment : Option String
deriving DecidableEq

/-- Embedding of Collation. -/
structure Collation : Type where
  schema : Option String
  name : String
  provider : Option String
  locale : Option String
  deterministic : Option Bool
deriving DecidableEq

/-- Embedding of FunctionSignature. -/
structure FunctionSignature : Type where
  schema : Option String
  name : String
  args : List DataType
  return_type : DataType
  language : Option String
  volatile : Option FunctionVolatility
deriving DecidableEq

/-- Embedding of TableOptions; the storage parameter HashMap is modelled
as an association list. -/
structure TableOptions : Type where
  inherits : List QualifiedName
  temporary : Bool
  unlogged : Bool
  partitioned : Option Bool
  tablespace : Option String
  with_storage_params : List (String × String)
deriving DecidableEq

/-- Embedding of the Table struct from src/lib.rs. -/
structure Table : Type where
  name : String
  columns : List Column
  primary_key : Option PrimaryKey
  uniques : List UniqueConstraint
  foreign_keys : List ForeignKey
  checks : List CheckConstraint
  indexes : List Index
  options : TableOptions
  comment : Option String
  owned_sequences : List String
deriving DecidableEq

/-- Embedding of View. -/
structure View : Type where
  name : String
  columns : List Column
  definition : String
  materialized : Bool
  check_option : Option ViewCheckOption
  comment : Option String
deriving DecidableEq

/-- Embedding of MaterializedView. -/
structure MaterializedView : Type where
  name : String
  columns : List Column
  definition : String
  comment : Option String
deriving DecidableEq

/-- Embedding of PartialSchema from src/lib.rs. -/
structure PartialSchema : Type where
  tables : List Table
  views : List View
  materialized_views : List MaterializedView
  enums : List EnumType
  domains : List DomainType
  composite_types : List CompositeType
  sequences : List Sequence
  collations : List Collation
  functions : List FunctionSignature
deriving DecidableEq

/-! ### Facet reflection model, the input of src/conversion.rs -/

/-- Embedding of facet StructKind. -/
inductive StructKind : Type where
| Struct
| Tuple
| TupleStruct
| Unit
deriving DecidableEq

/-- Embedding of a facet field attribute: optional namespace and key. -/
structure FAttr : Type where
  ns : Option String
  key : String
deriving DecidableEq

/-- Embedding of facet ShapeLayout: either a sized layout with a byte
size, or unsized. -/
inductive ShapeLayout : Type where
| Sized (size : Nat)
| Unsized
deriving DecidableEq

/-- Embedding of facet NumericType. -/
inductive FNumericType : Type where
| Integer (signed : Bool)
| Float
deriving DecidableEq

/-- Embedding of facet TextualType. -/
inductive FTextualType : Type where
| Char
| Str
deriving DecidableEq

/-- Embedding of facet PrimitiveType. -/
inductive FPrimitiveType : Type where
| Boolean
| Numeric (n : FNumericType)
| Textual (t : FTextualType)
| Never
deriving DecidableEq

mutual

/-- Embedding of facet Shape as read by src/conversion.rs: identifier,
layout, def, ty, type parameter shapes and the optional inner shape. -/
inductive FShape : Type where
| mk (type_identifier : String) (layout : ShapeLayout) (definition : FDef)
    (ty : FType) (type_params : List FShape) (inner : Option FShape)

/-- Embedding of facet Def. -/
inductive FDef : Type where
| Undefined
| Scalar
| Map (k : FShape) (v : FShape)
| Set (t : FShape)
| List (t : FShape)
| Array (t : FShape) (n : Nat)
| Option (t : FShape)

/-- Embedding of facet Type. -/
inductive FType : Type where
| Primitive (p : FPrimitiveType)
| Sequence (t : FShape)
| User (u : FUserType)
| Pointer

/-- Embedding of facet UserType. -/
inductive FUserType : Type where
| Struct (s : FStructType)
| Enum (e : FEnumType)
| Union (fields : List FField)
| Opaque

/-- Embedding of facet StructType: kind and fields. -/
inductive FStructType : Type where
| mk (kind : StructKind) (fields : List FField)

/-- Embedding of facet Field: name, shape and attributes. -/
inductive FField : Type where
| mk (name : String) (shape : FShape) (attributes : List FAttr)

/-- Embedding of facet EnumType: its variants. -/
inductive FEnumType : Type where
| mk (variants : List FVariant)

/-- Embedding of facet Variant: name and data struct. -/
inductive FVariant : Type where
| mk (name : String) (data : FStructType)

end

/-- Projection for the type identifier of a facet shape. -/
def FShape.type_identifier : FShape → String
| .mk i _ _ _ _ _ => i

/-- Projection for the layout of a facet shape. -/
def FShape.layout : FShape → ShapeLayout
| .mk _ l _ _ _ _ => l

/-- Projection for the def of a facet shape. -/
def FShape.definition : FShape → FDef
| .mk _ _ d _ _ _ => d

/-- Projection for the ty of a facet shape. -/
def FShape.ty : FShape → FType
| .mk _ _ _ t _ _ => t

/-- Projection for the type parameter shapes of a facet shape. -/
def FShape.type_params : FShape → List FShape
| .mk _ _ _ _ p _ => p

/-- Projection for the inner shape of a facet shape. -/
def FShape.inner : FShape → Option FShape
| .mk _ _ _ _ _ i => i

/-- Projection for the kind of a facet struct type. -/
def FStructType.kind : FStructType → StructKind
| .mk k _ => k

/-- Projection for the fields of a facet struct type. -/
def FStructType.fields : FStructType → List FField
| .mk _ f => f

/-- Projection for the name of a facet field. -/
def FField.name : FField → String
| .mk n _ _ => n

/-- Projection for the shape of a facet field. -/
def FField.shape : FField → FShape
| .mk _ s _ => s

/-- Projection for the attributes of a facet field. -/
def FField.attributes : FField → List FAttr
| .mk _ _ a => a

/-- Projection for the variants of a facet enum type. -/
def FEnumType.variants : FEnumType → List FVariant
| .mk v => v

/-- Projection for the name of a facet variant. -/
def FVariant.name : FVariant → String
| .mk n _ => n

/-- Projection for the data of a facet variant. -/
def FVariant.data : FVariant → FStructType
| .mk _ d => d

/-! ### Shape compiler, from src/conversion.rs -/

/-- Lowercasing, mirroring Rust str::to_lowercase; defined by mapping
Char.toLower over the characters so that it evaluates in the kernel. -/
def strToLower (s : String) : String := ⟨s.data.map Char.toLower⟩

/-- Embedding of the ConversionError enum from src/conversion.rs. -/
inductive ConversionError : Type where
| UnsupportedType (msg : String)
| NotAStruct (msg : String)
| MissingTypeInfo
| MultiplePrimaryKeys (msg : String)
deriving DecidableEq

/-- Substring containment, mirroring Rust str::contains with a string
pattern. -/
def strContains (s pat : String) : Bool :=
  decide (List.IsInfix pat.toList s.toList)

/-- Suffix test, mirroring Rust str::ends_with. -/
def strEndsWith (s pat : String) : Bool :=
  decide (List.IsSuffix pat.toList s.toList)

/-- Embedding of is_option_type from src/conversion.rs: the check is on
the type identifier containing the substring Option, not on the def. -/
def is_option_type (s : FShape) : Bool :=
  strContains s.type_identifier "Option"

/-- Embedding of get_option_inner_type from src/conversion.rs: first type
parameter when present, else the first field of a first tuple variant. -/
def get_option_inner_type : FShape → Option FShape
| .mk _ _ _ _ (p :: _) _ => some p
| .mk _ _ _ (.User (.Enum (.mk ((.mk _ (.mk .Tuple ((.mk _ fsh _) :: _))) :: _)))) [] _ =>
  some fsh
| _ => none

/-- Embedding of primitive_to_data_type from src/conversion.rs: integer
width from the layout size picks the SQL integer type, float width picks
Real or DoublePrecision. -/
def primitive_to_data_type (p : FPrimitiveType) (s : FShape) :
    Except ConversionError DataType :=
  match p with
  | .Boolean => .ok .Boolean
  | .Numeric (.Integer _) =>
    match s.layout with
    | .Sized size =>
      match size with
      | 1 => .ok .SmallInt
      | 2 => .ok .SmallInt
      | 4 => .ok .Integer
      | 8 => .ok .BigInt
      | 16 => .ok .BigInt
      | _ => .ok .BigInt
    | .Unsized => .error (.UnsupportedType "unsized integer")
  | .Numeric .Float =>
    match s.layout with
    | .Sized size =>
      match size with
      | 4 => .ok .Real
      | 8 => .ok .DoublePrecision
      | _ => .error (.UnsupportedType ("float with size " ++ toString size))
    | .Unsized => .error (.UnsupportedType "unsized float")
  | .Textual .Char => .ok (.Char (some 1))
  | .Textual .Str => .ok .Text
  | .Never => .error (.UnsupportedType "Never")

/-- Embedding of user_type_to_data_type from src/conversion.rs: String by
identifier becomes Text, Vec and HashMap become Jsonb, structs Jsonb,
enums Integer, anything else is unsupported. -/
def user_type_to_data_type (u : FUserType) (s : FShape) :
    Except ConversionError DataType :=
  if s.type_identifier == "String"
      || strEndsWith s.type_identifier "::String"
      || strContains s.type_identifier "alloc::string::String" then
    .ok .Text
  else if strContains s.type_identifier "Vec"
      || strContains s.type_identifier "::vec::Vec" then
    .ok .Jsonb
  else if strContains s.type_identifier "HashMap" then
    .ok .Jsonb
  else
    match u with
    | .Struct _ => .ok .Jsonb
    | .Enum _ => .ok .Integer
    | _ => .error (.UnsupportedType
        ("user type (type_identifier: " ++ s.type_identifier ++ ")"))

/-- Fallback of the pointer branch of shape_to_data_type: a string-like
identifier maps to Text, anything else is unsupported. -/
def pointerFallback (s : FShape) : Except ConversionError (DataType × Bool) :=
  if strContains s.type_identifier "str" then .ok (.Text, false)
  else .error (.UnsupportedType
      ("Pointer/reference type: " ++ s.type_identifier))

/-- Non-Option path of shape_to_data_type from src/conversion.rs. -/
def shapeToDataTypeBase (s : FShape) : Except ConversionError (DataType × Bool) :=
  match s.ty with
  | .Primitive p =>
    match primitive_to_data_type p s with
    | .ok t => .ok (t, false)
    | .error e => .error e
  | .User u =>
    match user_type_to_data_type u s with
    | .ok t => .ok (t, false)
    | .error e => .error e
  | .Pointer =>
    match s.inner with
    | some i =>
      if strContains i.type_identifier "str" then .ok (.Text, false)
      else pointerFallback s
    | none => pointerFallback s
  | .Sequence _ => .error (.UnsupportedType
      ("Sequence (type_identifier: " ++ s.type_identifier ++ ")"))

/-- Embedding of shape_to_data_type from src/conversion.rs: a shape whose
identifier contains Option and whose inner shape is extractable (the two
patterns of get_option_inner_type, inlined here so the recursion is
structural) is unwrapped recursively and marked nullable; otherwise the
base mapping applies. -/
def shape_to_data_type : FShape → Except ConversionError (DataType × Bool)
| .mk tid lay d ty (p :: tps) inn =>
  if is_option_type (.mk tid lay d ty (p :: tps) inn) then
    match shape_to_data_type p with
    | .ok (t, _) => .ok (t, true)
    | .error e => .error e
  else shapeToDataTypeBase (.mk tid lay d ty (p :: tps) inn)
| .mk tid lay d (.User (.Enum (.mk ((.mk vn (.mk .Tuple ((.mk fn fsh fattrs) :: ffs))) :: vs)))) [] inn =>
  if is_option_type (.mk tid lay d
      (.User (.Enum (.mk ((.mk vn (.mk .Tuple ((.mk fn fsh fattrs) :: ffs))) :: vs)))) [] inn) then
    match shape_to_data_type fsh with
    | .ok (t, _) => .ok (t, true)
    | .error e => .error e
  else shapeToDataTypeBase (.mk tid lay d
      (.User (.Enum (.mk ((.mk vn (.mk .Tuple ((.mk fn fsh fattrs) :: ffs))) :: vs)))) [] inn)
| s => shapeToDataTypeBase s
termination_by structural s => s

/-- Embedding of field_to_column from src/conversion.rs. -/
def field_to_column (f : FField) : Except ConversionError Column :=
  match shape_to_data_type f.shape with
  | .error e => .error e
  | .ok (dt, nullable) =>
    .ok { name := f.name, data_type := dt, default := none,
          nullable := nullable, collation := none, is_generated := false,
          generation_expression := none, is_identity := false,
          identity_generation := none, comment := none, privileges := none }

/-- Table options built with Default::default storage params, as
conversion.rs does everywhere. -/
def defaultTableOptions : TableOptions :=
  { inherits := [], temporary := false, unlogged := false,
    partitioned := none, tablespace := none, with_storage_params := [] }

/-- Primary-key column names collected by process_fields: one entry per
attribute with key primary_key in namespace psql. -/
def pkColumns (fields : List FField) : List String :=
  (fields.map (fun f =>
    (f.attributes.filter
      (fun a => a.key == "primary_key" && a.ns == some "psql")).map
      (fun _ => f.name))).flatten

/-- Primary key with the given columns and no name, as conversion.rs
builds it. -/
def primaryKeyOn (cols : List String) : PrimaryKey :=
  { name := none, columns := cols, deferrable := none, using_cl := none }

/-- Named variant_integrity check constraint with the given expression. -/
def variantIntegrityCheck (expr : String) : CheckConstraint :=
  { name := some "variant_integrity", expression := expr,
    no_inherit := false }

/-- Embedding of process_fields from src/conversion.rs: converts every
field to a column, then collects primary-key tagged names, more than one
of which is a MultiplePrimaryKeys error. -/
def process_fields (fields : List FField) (table_name : String) :
    Except ConversionError (List Column × Option PrimaryKey) :=
  match fields.mapM field_to_column with
  | .error e => .error e
  | .ok cols =>
    let pk_cols := pkColumns fields
    if pk_cols.length > 1 then
      .error (.MultiplePrimaryKeys
        ("Table '" ++ table_name ++ "' has " ++ toString pk_cols.length
          ++ " primary keys"))
    else if pk_cols.isEmpty then .ok (cols, none)
    else .ok (cols, some (primaryKeyOn pk_cols))

/-- Embedding of shape_to_table from src/conversion.rs. -/
def shape_to_table (s : FShape) : Except ConversionError Table :=
  match s.ty with
  | .User (.Struct st) =>
    let table_name := strToLower s.type_identifier
    match process_fields st.fields table_name with
    | .error e => .error e
    | .ok (cols, pk) =>
      .ok { name := table_name, columns := cols, primary_key := pk,
            uniques := [], foreign_keys := [], checks := [], indexes := [],
            options := defaultTableOptions, comment := none,
            owned_sequences := [] }
  | _ => .error (.NotAStruct
      ("not a struct (type_identifier: " ++ s.type_identifier ++ ")"))

/-- Identity id column pushed first into the main and variant tables of a
compiled enum. -/
def enumIdColumn : Column :=
  { name := "id", data_type := .BigSerial, default := none,
    nullable := false, collation := none, is_generated := true,
    generation_expression := none, is_identity := true,
    identity_generation := some .Always, comment := none,
    privileges := none }

/-- Discriminant column of the main table of a compiled enum. -/
def discriminantColumn : Column :=
  { name := "discriminant", data_type := .Integer, default := none,
    nullable := false, collation := none, is_generated := false,
    generation_expression := none, is_identity := false,
    identity_generation := none,
    comment := some "Discriminant for enum variant", privileges := none }

/-- True for the data-bearing struct kinds, false for unit variants. -/
def isNonUnitKind : StructKind → Bool
| .Unit => false
| _ => true

/-- Variant loop of enum_to_partial_schema: for every non-unit variant,
in declaration order, a variant table, a nullable BigInt foreign-key
column for the main table, and a foreign key with on delete Cascade and
on update NoAction. -/
def enumVariantLoop (base : String) :
    List FVariant → Except ConversionError (List Table × List Column × List ForeignKey)
| [] => .ok ([], [], [])
| v :: rest =>
  if isNonUnitKind v.data.kind then
    let vname := strToLower v.name
    let vtable_name := base ++ "_" ++ vname
    match process_fields v.data.fields vtable_name with
    | .error e => .error e
    | .ok (fcols, _) =>
      let vtable : Table :=
        { name := vtable_name, columns := enumIdColumn :: fcols,
          primary_key := some (primaryKeyOn ["id"]),
          uniques := [], foreign_keys := [], checks := [], indexes := [],
          options := defaultTableOptions, comment := none,
          owned_sequences := [] }
      let fkcol : Column :=
        { name := vname ++ "_id", data_type := .BigInt, default := none,
          nullable := true, collation := none, is_generated := false,
          generation_expression := none, is_identity := false,
          identity_generation := none, comment := none, privileges := none }
      let fk : ForeignKey :=
        { name := none, columns := [vname ++ "_id"],
          referenced_table := { schema := none, name := vtable_name },
          referenced_columns := some ["id"],
          on_delete := some .Cascade, on_update := some .NoAction,
          match_type := none, deferrable := none, initially := none }
      match enumVariantLoop base rest with
      | .error e => .error e
      | .ok (ts, cs, fs) => .ok (vtable :: ts, fkcol :: cs, fk :: fs)
  else enumVariantLoop base rest

/-- Lockstep clause for a non-unit variant at declaration index i. -/
def variantCheckClause (i : Nat) (vnameLower : String) : String :=
  "(CASE WHEN discriminant = " ++ toString i ++ " THEN " ++ vnameLower
    ++ "_id IS NOT NULL ELSE " ++ vnameLower ++ "_id IS NULL END)"

/-- Check-constraint clauses of enum_to_partial_schema: one clause per
non-unit variant, indexed by declaration position over all variants. -/
def enumCheckParts (variants : List FVariant) : List String :=
  (variants.enum.filter (fun p => isNonUnitKind p.2.data.kind)).map
    (fun p => variantCheckClause p.1 (strToLower p.2.name))

/-- Embedding of enum_to_partial_schema from src/conversion.rs. -/
def enum_to_partial_schema (s : FShape) (e : FEnumType) :
    Except ConversionError PartialSchema :=
  let base := strToLower s.type_identifier
  match enumVariantLoop base e.variants with
  | .error err => .error err
  | .ok (vtables, fkcols, fks) =>
    let parts := enumCheckParts e.variants
    let check_expression :=
      if parts.isEmpty then "1=1" else String.intercalate " AND " parts
    let main_table : Table :=
      { name := base, columns := enumIdColumn :: discriminantColumn :: fkcols,
        primary_key := some (primaryKeyOn ["id"]),
        uniques := [], foreign_keys := fks,
        checks := [variantIntegrityCheck check_expression],
        indexes := [], options := defaultTableOptions, comment := none,
        owned_sequences := [] }
    .ok { tables := vtables ++ [main_table], views := [],
          materialized_views := [], enums := [], domains := [],
          composite_types := [], sequences := [], collations := [],
          functions := [] }

/-- Embedding of the TryFrom facet Shape for PartialSchema impl from
src/conversion.rs: structs become a single table, enums go through
enum_to_partial_schema, anything else is NotAStruct. -/
def tryFromShape (s : FShape) : Except ConversionError PartialSchema :=
  match s.ty with
  | .User (.Struct _) =>
    match shape_to_table s with
    | .error e => .error e
    | .ok t =>
      .ok { tables := [t], views := [], materialized_views := [],
            enums := [], domains := [], composite_types := [],
            sequences := [], collations := [], functions := [] }
  | .User (.Enum e) => enum_to_partial_schema s e
  | _ => .error (.NotAStruct
      ("not a struct (type_identifier: " ++ s.type_identifier ++ ")"))

/-! ### DDL renderer, from PartialSchema::to_ddl in src/lib.rs -/

/-- Single-quote character, used to build and escape SQL string
literals. -/
def sq : String := String.singleton (Char.ofNat 39)

/-- Embedding of the esc helper of to_ddl: single quotes are doubled. -/
def esc (s : String) : String := s.replace sq (sq ++ sq)

/-- Embedding of render_data_type from to_ddl. -/
def render_data_type : DataType → String
| .Boolean => "boolean"
| .SmallInt => "smallint"
| .Integer => "integer"
| .BigInt => "bigint"
| .Real => "real"
| .DoublePrecision => "double precision"
| .Numeric (some p) (some s) => "numeric(" ++ toString p ++ "," ++ toString s ++ ")"
| .Numeric (some p) none => "numeric(" ++ toString p ++ ")"
| .Numeric none _ => "numeric"
| .Serial => "serial"
| .BigSerial => "bigserial"
| .Text => "text"
| .Varchar (some n) => "varchar(" ++ toString n ++ ")"
| .Varchar none => "varchar"
| .Char (some n) => "char(" ++ toString n ++ ")"
| .Char none => "char"
| .Bytea => "bytea"
| .Timestamp true => "timestamp with time zone"
| .Timestamp false => "timestamp without time zone"
| .Date => "date"
| .Time true => "time with time zone"
| .Time false => "time without time zone"
| .Interval => "interval"
| .Json => "json"
| .Jsonb => "jsonb"
| .Uuid => "uuid"
| .Inet => "inet"
| .MacAddr => "macaddr"
| .TsVector => "tsvector"
| .Array inner => render_data_type inner ++ "[]"
| .Enum (some s) n => s ++ "." ++ n
| .Enum none n => n
| .Composite (some s) n => s ++ "." ++ n
| .Composite none n => n
| .Domain (some s) n => s ++ "." ++ n
| .Domain none n => n
| .Custom (some s) n => s ++ "." ++ n
| .Custom none n => n
| .Any => "any"
| .Unknown => "unknown"

/-- Qualified name built from an optional schema and a name, as to_ddl
does for types, sequences and domains. -/
def qnameOf (schema : Option String) (name : String) : String :=
  match schema with
  | some s => s ++ "." ++ name
  | none => name

/-- Statements of to_ddl pass 1 for one enum type. -/
def enumTypeStmts (e : EnumType) : List String :=
  let vars := String.intercalate ", "
    (e.variants.map (fun v => sq ++ esc v ++ sq))
  let q := qnameOf e.schema e.name
  ("CREATE TYPE " ++ q ++ " AS ENUM (" ++ vars ++ ");")
    :: (match e.comment with
        | some c => ["COMMENT ON TYPE " ++ q ++ " IS " ++ sq ++ esc c ++ sq ++ ";"]
        | none => [])

/-- Statements of to_ddl pass 1 for one sequence. -/
def sequenceStmts (s : Sequence) : List String :=
  let q := qnameOf s.schema s.name
  let parts := ["CREATE SEQUENCE " ++ q]
    ++ (match s.start with
        | some v => ["START WITH " ++ toString v]
        | none => [])
    ++ (match s.increment with
        | some v => ["INCREMENT BY " ++ toString v]
        | none => [])
    ++ (match s.min_value with
        | some v => ["MINVALUE " ++ toString v]
        | none => [])
    ++ (match s.max_value with
        | some v => ["MAXVALUE " ++ toString v]
        | none => [])
    ++ (match s.cache with
        | some v => ["CACHE " ++ toString v]
        | none => [])
    ++ [if s.cycle then "CYCLE" else "NO CYCLE"]
  (String.intercalate " " parts ++ ";")
    :: (match s.comment with
        | some c =>
          ["COMMENT ON SEQUENCE " ++ q ++ " IS " ++ sq ++ esc c ++ sq ++ ";"]
        | none => [])

/-- Statements of to_ddl pass 1 for one composite type. -/
def compositeTypeStmts (ct : CompositeType) : List String :=
  let q := qnameOf ct.schema ct.name
  let fields := String.intercalate ", "
    (ct.fields.map (fun f => f.name ++ " " ++ render_data_type f.data_type))
  ("CREATE TYPE " ++ q ++ " AS (" ++ fields ++ ");")
    :: (match ct.comment with
        | some c => ["COMMENT ON TYPE " ++ q ++ " IS " ++ sq ++ esc c ++ sq ++ ";"]
        | none => [])

/-- Statements of to_ddl pass 1 for one domain. -/
def domainStmts (dom : DomainType) : List String :=
  let q := qnameOf dom.schema dom.name
  let line := "CREATE DOMAIN " ++ q ++ " AS " ++ render_data_type dom.base_type
  let line := if dom.not_null then line ++ " NOT NULL" else line
  let line := match dom.default with
    | some d => line ++ " DEFAULT " ++ d
    | none => line
  (line ++ ";")
    :: (match dom.comment with
        | some c =>
          ["COMMENT ON DOMAIN " ++ q ++ " IS " ++ sq ++ esc c ++ sq ++ ";"]
        | none => [])

/-- Rendering of one column inside CREATE TABLE, with modifiers in the
fixed order type, collate, identity or generation or default,
nullability. -/
def renderColumn (c : Column) : String :=
  let col := c.name ++ " " ++ render_data_type c.data_type
  let col := match c.collation with
    | some coll => col ++ " COLLATE " ++ coll
    | none => col
  let col :=
    if c.is_identity then
      let genStr := match c.identity_generation with
        | some .Always => "ALWAYS"
        | some .ByDefault => "BY DEFAULT"
        | none => "BY DEFAULT"
      col ++ " GENERATED " ++ genStr ++ " AS IDENTITY"
    else if c.is_generated then
      match c.generation_expression with
      | some expr => col ++ " GENERATED ALWAYS AS (" ++ expr ++ ") STORED"
      | none => col
    else
      match c.default with
      | some d => col ++ " DEFAULT " ++ d
      | none => col
  if !c.nullable then col ++ " NOT NULL" else col

/-- CREATE TABLE statement of to_ddl pass 2 for one table. -/
def createTableStmt (schema_name : String) (t : Table) : String :=
  let q := schema_name ++ "." ++ t.name
  let cols := String.intercalate ", " (t.columns.map renderColumn)
  let stmt := "CREATE TABLE " ++ q ++ " (" ++ cols ++ ")"
  let stmt := match t.primary_key with
    | some pk => stmt ++ ", PRIMARY KEY (" ++ String.intercalate ", " pk.columns ++ ")"
    | none => stmt
  stmt ++ ";"

/-- Unique-constraint statements of to_ddl pass 2 for one table. -/
def uniqueStmts (schema_name : String) (t : Table) : List String :=
  let q := schema_name ++ "." ++ t.name
  t.uniques.map (fun u =>
    let name := match u.name with
      | some x => x
      | none => t.name ++ "_" ++ String.intercalate "_" u.columns ++ "_key"
    "ALTER TABLE " ++ q ++ " ADD CONSTRAINT " ++ name ++ " UNIQUE ("
      ++ String.intercalate ", " u.columns ++ ");")

/-- Check-constraint statements of to_ddl pass 2 for one table. -/
def checkStmts (schema_name : String) (t : Table) : List String :=
  let q := schema_name ++ "." ++ t.name
  t.checks.map (fun ck =>
    match ck.name with
    | some nm => "ALTER TABLE " ++ q ++ " ADD CONSTRAINT " ++ nm
        ++ " CHECK (" ++ ck.expression ++ ");"
    | none => "ALTER TABLE " ++ q ++ " ADD CHECK (" ++ ck.expression ++ ");")

/-- All statements to_ddl pass 2 emits for one table: the CREATE TABLE
then its unique and check constraints. -/
def tableStmtsFor (schema_name : String) (t : Table) : List String :=
  createTableStmt schema_name t :: (uniqueStmts schema_name t ++ checkStmts schema_name t)

/-- Statements of to_ddl pass 3 for one view. -/
def viewStmts (schema_name : String) (v : View) : List String :=
  let q := schema_name ++ "." ++ v.name
  let stmt := if v.materialized then
      "CREATE MATERIALIZED VIEW " ++ q ++ " AS\n" ++ v.definition ++ ";"
    else "CREATE VIEW " ++ q ++ " AS\n" ++ v.definition ++ ";"
  stmt :: (match v.comment with
    | some c => ["COMMENT ON VIEW " ++ q ++ " IS " ++ sq ++ esc c ++ sq ++ ";"]
    | none => [])

/-- Statements of to_ddl pass 3 for one materialized view. -/
def materializedViewStmts (schema_name : String) (mv : MaterializedView) :
    List String :=
  let q := schema_name ++ "." ++ mv.name
  ("CREATE MATERIALIZED VIEW " ++ q ++ " AS\n" ++ mv.definition ++ ";")
    :: (match mv.comment with
        | some c =>
          ["COMMENT ON MATERIALIZED VIEW " ++ q ++ " IS " ++ sq ++ esc c ++ sq ++ ";"]
        | none => [])

/-- Rendering of one index column of to_ddl pass 4. -/
def renderIndexColumn (col : IndexColumn) : String :=
  let e := match col.expr with
    | .Column c => c
    | .Expression ex => "(" ++ ex ++ ")"
  let e := match col.collate with
    | some coll => e ++ " COLLATE " ++ coll
    | none => e
  let e := match col.opclass with
    | some op => e ++ " " ++ op
    | none => e
  let e := match col.order with
    | some .Asc => e ++ " ASC"
    | some .Desc => e ++ " DESC"
    | none => e
  match col.nulls_order with
  | some .First => e ++ " NULLS FIRST"
  | some .Last => e ++ " NULLS LAST"
  | none => e

/-- Statements of to_ddl pass 4 for one index of one table; primary-key
backing indexes are skipped. -/
def indexStmtsForIndex (schema_name : String) (t : Table) (idx : Index) :
    List String :=
  let qtable := schema_name ++ "." ++ t.name
  let idx_name := if idx.name.isEmpty then
      t.name ++ "_idx_" ++ String.intercalate "_"
        (idx.columns.map (fun c => match c.expr with
          | .Column n => n
          | _ => "expr"))
    else idx.name
  if idx.is_primary then []
  else
    let method := match idx.method with
      | some m => m
      | none => "btree"
    let uniqueStr := if idx.unique then "UNIQUE " else ""
    let concurrentStr := if idx.concurrently then "CONCURRENTLY " else ""
    let cols_str := String.intercalate ", " (idx.columns.map renderIndexColumn)
    let stmt := "CREATE " ++ uniqueStr ++ "INDEX " ++ concurrentStr ++ idx_name
      ++ " ON " ++ qtable ++ " USING " ++ method ++ " (" ++ cols_str ++ ")"
    let stmt := if !idx.include_cols.isEmpty then
        stmt ++ " INCLUDE (" ++ String.intercalate ", " idx.include_cols ++ ")"
      else stmt
    let stmt := match idx.predicate with
      | some pred => stmt ++ " WHERE " ++ pred
      | none => stmt
    let stmt := match idx.tablespace with
      | some ts => stmt ++ " TABLESPACE " ++ ts
      | none => stmt
    [stmt ++ ";"]

/-- Statements of to_ddl pass 4 for one table. -/
def indexStmtsFor (schema_name : String) (t : Table) : List String :=
  (t.indexes.map (indexStmtsForIndex schema_name t)).flatten

/-- Rendering of a referential action keyword. -/
def renderAction : ReferentialAction → String
| .NoAction => "NO ACTION"
| .Restrict => "RESTRICT"
| .Cascade => "CASCADE"
| .SetNull => "SET NULL"
| .SetDefault => "SET DEFAULT"

/-- Foreign-key statements of to_ddl pass 5 for one table. -/
def tableFkStmts (schema_name : String) (t : Table) : List String :=
  let q := schema_name ++ "." ++ t.name
  t.foreign_keys.map (fun fk =>
    let name := match fk.name with
      | some x => x
      | none => t.name ++ "_" ++ String.intercalate "_" fk.columns ++ "_fkey"
    let ref_t := fk.referenced_table.render
    let cols := String.intercalate ", " fk.columns
    let refcols := match fk.referenced_columns with
      | some v => "(" ++ String.intercalate ", " v ++ ")"
      | none => ""
    let stmt := "ALTER TABLE " ++ q ++ " ADD CONSTRAINT " ++ name
      ++ " FOREIGN KEY (" ++ cols ++ ") REFERENCES " ++ ref_t
      ++ (if refcols.isEmpty then "" else " " ++ refcols)
    let stmt := match fk.on_delete with
      | some action => stmt ++ " ON DELETE " ++ renderAction action
      | none => stmt
    let stmt := match fk.on_update with
      | some action => stmt ++ " ON UPDATE " ++ renderAction action
      | none => stmt
    stmt ++ ";")

/-- Statements of to_ddl passes 1 through 4: schema, types and sequences,
base tables with unique and check constraints, views, indexes. -/
def ddlNonFkStmts (s : PartialSchema) (schema_name : String) : List String :=
  ("CREATE SCHEMA IF NOT EXISTS " ++ schema_name ++ ";")
    :: ((s.enums.map enumTypeStmts).flatten
      ++ (s.sequences.map sequenceStmts).flatten
      ++ (s.composite_types.map compositeTypeStmts).flatten
      ++ (s.domains.map domainStmts).flatten
      ++ (s.tables.map (tableStmtsFor schema_name)).flatten
      ++ (s.views.map (viewStmts schema_name)).flatten
      ++ (s.materialized_views.map (materializedViewStmts schema_name)).flatten
      ++ (s.tables.map (indexStmtsFor schema_name)).flatten)

/-- Statements of to_ddl pass 5: every foreign key of every table. -/
def ddlFkStmts (s : PartialSchema) (schema_name : String) : List String :=
  (s.tables.map (tableFkStmts schema_name)).flatten

/-- Full ordered statement list of to_ddl. -/
def toDdlStmts (s : PartialSchema) (schema_name : String) : List String :=
  ddlNonFkStmts s schema_name ++ ddlFkStmts s schema_name

/-- Embedding of PartialSchema::to_ddl from src/lib.rs: the ordered
statement list joined by newlines. -/
def to_ddl (s : PartialSchema) (schema_name : String) : String :=
  String.intercalate "\n" (toDdlStmts s schema_name)

/-! ### Projections and observers used by theorem statements -/

/-- Updates of a User struct diff, empty for every other diff. -/
def Diff.updatesOf : Diff → List (String × Diff)
| .User _ _ (.Struct u _ _ _) => u
| _ => []

/-- Deletions of a User struct diff, empty for every other diff. -/
def Diff.deletionsOf : Diff → List String
| .User _ _ (.Struct _ d _ _) => d
| _ => []

/-- Insertions of a User struct diff, empty for every other diff. -/
def Diff.insertionsOf : Diff → List String
| .User _ _ (.Struct _ _ i _) => i
| _ => []

/-- Unchanged names of a User struct diff, empty for every other diff. -/
def Diff.unchangedOf : Diff → List String
| .User _ _ (.Struct _ _ _ u) => u
| _ => []

/-- True exactly for a User diff. -/
def Diff.is_user : Diff → Bool
| .User _ _ _ => true
| _ => false

/-- True exactly for a Different diff. -/
def Diff.is_different : Diff → Bool
| .Different _ _ => true
| _ => false

/-- True when a diff reports no field-level change: either Equal, or a
User struct diff with no updates, deletions or insertions. -/
def noFieldChanges : Diff → Bool
| .Equal => true
| .User _ _ (.Struct u d i _) => u.isEmpty && d.isEmpty && i.isEmpty
| _ => false

/-- True exactly for the Option def constructor. -/
def FDef.isOption : FDef → Bool
| .Option _ => true
| _ => false

/-- Nullability of a successful column conversion. -/
def exceptNullable : Except ConversionError Column → Option Bool
| .ok c => some c.nullable
| .error _ => none

/-- Data type of a successful shape_to_data_type result. -/
def exceptDataType : Except ConversionError (DataType × Bool) → Option DataType
| .ok (t, _) => some t
| .error _ => none

/-- Spec-side kind test: payload is primitive Numeric. -/
def kindIsNumeric (s : OwnedShape) : Bool :=
  match s.ty with
  | .Primitive (.Numeric _) => true
  | _ => false

/-- Spec-side kind test: payload is primitive Textual. -/
def kindIsTextual (s : OwnedShape) : Bool :=
  match s.ty with
  | .Primitive (.Textual _) => true
  | _ => false

/-- Spec-side kind test: payload is Opaque with the canonical
textual-buffer identifier String. -/
def kindIsOpaqueString (s : OwnedShape) : Bool :=
  (match s.ty with
   | .User .Opaque => true
   | _ => false) && s.type_identifier == "String"

/-- Combination table written from the words of the spec compatibility
rule, for comparison with is_compatible_type_change: after unwrapping
Option wrappers on both sides, Numeric or Textual on both sides is
compatible, and Opaque with Numeric is compatible exactly when the opaque
side is the String type. -/
def spec_compatible_combination (f t : OwnedShape) : Bool :=
  let fu := unwrap_option_type f
  let tu := unwrap_option_type t
  (kindIsNumeric fu && kindIsNumeric tu)
    || (kindIsNumeric fu && kindIsTextual tu)
    || (kindIsTextual fu && kindIsNumeric tu)
    || (kindIsTextual fu && kindIsTextual tu)
    || (kindIsOpaqueString fu && kindIsNumeric tu)
    || (kindIsNumeric fu && kindIsOpaqueString tu)

/-! ### Concrete shapes and schemas used by witnesses and
counterexamples -/

/-- Owned shape of the u32 primitive. -/
def owned_u32 : OwnedShape :=
  .mk "u32" .Scalar (.Primitive (.Numeric (.Integer false)))

/-- Owned shape of the bool primitive. -/
def owned_bool : OwnedShape :=
  .mk "bool" .Scalar (.Primitive .Boolean)

/-- Owned field a of type u32. -/
def fieldA : OwnedField := .mk "a" owned_u32 []

/-- Owned field b of type bool. -/
def fieldB : OwnedField := .mk "b" owned_bool []

/-- Struct shape with fields a then b. -/
def structAB : OwnedShape :=
  .mk "S" .Undefined (.User (.Struct [fieldA, fieldB]))

/-- The same struct shape with its fields permuted to b then a. -/
def structBA : OwnedShape :=
  .mk "S" .Undefined (.User (.Struct [fieldB, fieldA]))

/-- Struct shape with field a only, plus a fresh field c. -/
def structAC : OwnedShape :=
  .mk "S" .Undefined (.User (.Struct [fieldA, .mk "c" owned_bool []]))

/-- Nested struct payload with one field x. -/
def nestedP1 : OwnedShape :=
  .mk "P" .Undefined (.User (.Struct [.mk "x" owned_u32 []]))

/-- Nested struct payload with one field y, structurally different from
nestedP1. -/
def nestedP2 : OwnedShape :=
  .mk "P" .Undefined (.User (.Struct [.mk "y" owned_u32 []]))

/-- Record with one field p of the first nested payload. -/
def recordR1 : OwnedShape :=
  .mk "R" .Undefined (.User (.Struct [.mk "p" nestedP1 []]))

/-- Record with one field p of the second nested payload. -/
def recordR2 : OwnedShape :=
  .mk "R" .Undefined (.User (.Struct [.mk "p" nestedP2 []]))

/-- Record with one field x of type u32. -/
def recordX32 : OwnedShape :=
  .mk "R" .Undefined (.User (.Struct [.mk "x" owned_u32 []]))

/-- Record with one field x of type bool. -/
def recordXBool : OwnedShape :=
  .mk "R" .Undefined (.User (.Struct [.mk "x" owned_bool []]))

/-- Facet shape of u32: scalar def, sized layout of 4 bytes. -/
def facet_u32 : FShape :=
  .mk "u32" (.Sized 4) .Scalar (.Primitive (.Numeric (.Integer false))) [] none

/-- Facet shape of an enum named MyOption whose first variant is a tuple
variant holding one u32 field; its def is not Option, but its identifier
contains the substring Option. -/
def facet_myOption : FShape :=
  .mk "MyOption" (.Sized 8) .Undefined
    (.User (.Enum (.mk [.mk "Some" (.mk .Tuple [.mk "0" facet_u32 []])])))
    [] none

/-- Facet field whose shape is facet_myOption. -/
def facet_weirdField : FField := .mk "weird" facet_myOption []

/-- Facet shape of the real Option of u32: def Option, identifier Option,
inner type in type_params. -/
def facet_optionU32 : FShape :=
  .mk "Option" (.Sized 8) (.Option facet_u32)
    (.User (.Enum (.mk [.mk "None" (.mk .Unit []),
      .mk "Some" (.mk .Tuple [.mk "0" facet_u32 []])])))
    [facet_u32] none

/-- Non-unit variant A with one field. -/
def variantA : FVariant := .mk "A" (.mk .Tuple [.mk "0" facet_u32 []])

/-- Non-unit variant B with two fields. -/
def variantB : FVariant :=
  .mk "B" (.mk .Tuple [.mk "0" facet_u32 [], .mk "1" facet_u32 []])

/-- Unit variant C. -/
def variantC : FVariant := .mk "C" (.mk .Unit [])

/-- Three-variant facet enum with non-unit A and B and unit C. -/
def exEnum : FEnumType := .mk [variantA, variantB, variantC]

/-- Facet shape of the three-variant enum. -/
def exEnumShape : FShape :=
  .mk "MyEnum" (.Sized 8) .Undefined (.User (.Enum exEnum)) [] none

/-- Empty partial schema, used as the default of Option.getD. -/
def emptyPartialSchema : PartialSchema :=
  { tables := [], views := [], materialized_views := [], enums := [],
    domains := [], composite_types := [], sequences := [], collations := [],
    functions := [] }

/-- Partial schema the compiler produces for the three-variant enum. -/
def exEnumPs : PartialSchema :=
  ((enum_to_partial_schema exEnumShape exEnum).toOption).getD emptyPartialSchema

/-- Minimal column named id. -/
def exIdColumn : Column :=
  { name := "id", data_type := .BigInt, default := none, nullable := false,
    collation := none, is_generated := false, generation_expression := none,
    is_identity := false, identity_generation := none, comment := none,
    privileges := none }

/-- Table b with a single id column and no foreign keys. -/
def exTableB : Table :=
  { name := "b", columns := [exIdColumn], primary_key := none,
    uniques := [], foreign_keys := [], checks := [], indexes := [],
    options := defaultTableOptions, comment := none, owned_sequences := [] }

/-- Foreign key of table a referencing table b. -/
def exFkAtoB : ForeignKey :=
  { name := none, columns := ["b_id"],
    referenced_table := { schema := none, name := "b" },
    referenced_columns := some ["id"], on_delete := none,
    on_update := none, match_type := none, deferrable := none,
    initially := none }

/-- Table a with a foreign key referencing table b. -/
def exTableA : Table :=
  { name := "a", columns := [exIdColumn], primary_key := none,
    uniques := [], foreign_keys := [exFkAtoB],
    checks := [], indexes := [], options := defaultTableOptions,
    comment := none, owned_sequences := [] }

/-- Schema holding table a before table b, although a references b. -/
def exFkSchema : PartialSchema :=
  { emptyPartialSchema with tables := [exTableA, exTableB] }

/-- Facet field holding a real Option of u32. -/
def facet_optField : FField := .mk "maybe" facet_optionU32 []

/-- Column the compiler produces for facet_optField: nullable Integer. -/
def expectedOptCol : Column :=
  { name := "maybe", data_type := .Integer, default := none,
    nullable := true, collation := none, is_generated := false,
    generation_expression := none, is_identity := false,
    identity_generation := none, comment := none, privileges := none }

/-! ### Helper lemmas -/

theorem beq_comm_lawful {α : Type} [BEq α] [LawfulBEq α] (a b : α) :
    (a == b) = (b == a) := by
  by_cases h : a = b
  · subst h; rfl
  · have h1 : (a == b) = false := beq_eq_false_iff_ne.mpr h
    have h2 : (b == a) = false := beq_eq_false_iff_ne.mpr (fun hh => h hh.symm)
    rw [h1, h2]

theorem bne_comm_lawful {α : Type} [BEq α] [LawfulBEq α] (a b : α) :
    (a != b) = (b != a) := by
  simp only [bne, beq_comm_lawful a b]

mutual

theorem shapes_equal_refl : (s : OwnedShape) → shapes_equal s s = true
| .mk i d t => by
  simp [shapes_equal, defs_equal_refl d, types_equal_refl t]

theorem defs_equal_refl : (d : OwnedDef) → defs_equal d d = true
| .Undefined => by simp [defs_equal]
| .Scalar => by simp [defs_equal]
| .Map k v => by simp [defs_equal, shapes_equal_refl k, shapes_equal_refl v]
| .Set t => by simp [defs_equal, shapes_equal_refl t]
| .List t => by simp [defs_equal, shapes_equal_refl t]
| .Array t n => by simp [defs_equal, shapes_equal_refl t]
| .Option t => by simp [defs_equal, shapes_equal_refl t]

theorem types_equal_refl : (t : OwnedType) → types_equal t t = true
| .Primitive p => by simp [types_equal]
| .Sequence s => by simp [types_equal, shapes_equal_refl s]
| .User (.Struct fs) => by simp [types_equal, fields_zip_equal_refl fs]
| .User (.Enum vs) => by simp [types_equal, variants_zip_equal_refl vs]
| .User (.Union fs) => by simp [types_equal, fields_zip_equal_refl fs]
| .User .Opaque => by simp [types_equal]

theorem fields_zip_equal_refl : (l : List OwnedField) → fields_zip_equal l l = true
| [] => by simp [fields_zip_equal]
| .mk n sh doc :: rest => by
  simp [fields_zip_equal, shapes_equal_refl sh, fields_zip_equal_refl rest]

theorem variants_zip_equal_refl : (l : List OwnedVariant) → variants_zip_equal l l = true
| [] => by simp [variants_zip_equal]
| .mk n d doc :: rest => by
  simp [variants_zip_equal, fields_zip_equal_refl d, variants_zip_equal_refl rest]

end

/-! ### Claim C6 -/

/-- C6: for every shape S the differ reports diff(S, S) = Equal; the deep
structural equality check shapes_equal is reflexive, so Diff::new returns
Equal immediately on equal inputs. -/
theorem c6_diff_self_equal (s : OwnedShape) :
    shapes_equal s s = true ∧ Diff.new s s = Diff.Equal := by
  refine ⟨shapes_equal_refl s, ?_⟩
  unfold Diff.new
  simp only [shapes_equal_refl s, if_true]

theorem lookupByName_eq_find_rev (l : List OwnedField) (n : String) :
    lookupByName l n = l.reverse.find? (fun f => f.name == n) := by
  have aux : ∀ (l : List OwnedField) (acc : Option OwnedField),
      l.foldl (fun a f => if f.name == n then some f else a) acc
        = (l.reverse.find? (fun f => f.name == n)).or acc := by
    intro l
    induction l with
    | nil => intro acc; simp
    | cons x t ih =>
      intro acc
      simp only [List.foldl_cons, List.reverse_cons, List.find?_append]
      rw [ih]
      cases hf : t.reverse.find? (fun f => f.name == n) with
      | some g => simp [Option.or]
      | none =>
        simp only [Option.or, List.find?]
        cases hx : (x.name == n) <;> simp
  rw [lookupByName, aux, Option.or_none]

theorem lookupByName_eq_none (l : List OwnedField) (n : String) :
    lookupByName l n = none ↔ ∀ f ∈ l, (f.name == n) = false := by
  rw [lookupByName_eq_find_rev]
  rw [List.find?_eq_none]
  constructor
  · intro h f hf
    have := h f (List.mem_reverse.mpr hf)
    simpa using this
  · intro h f hf
    have := h f (List.mem_reverse.mp hf)
    simp [this]

theorem lookupByName_mem {l : List OwnedField} {n : String} {f : OwnedField}
    (h : lookupByName l n = some f) : f ∈ l ∧ f.name = n := by
  rw [lookupByName_eq_find_rev] at h
  refine ⟨List.mem_reverse.mp (List.mem_of_find?_eq_some h), ?_⟩
  have := List.find?_some h
  simpa using this

theorem name_nodup_inj {l : List OwnedField}
    (h : (l.map OwnedField.name).Nodup) :
    ∀ f ∈ l, ∀ g ∈ l, f.name = g.name → f = g := by
  induction l with
  | nil => intro f hf; cases hf
  | cons x t ih =>
    simp only [List.map_cons, List.nodup_cons] at h
    intro f hf g hg hnames
    rcases List.mem_cons.mp hf with hfx | hft
    · rcases List.mem_cons.mp hg with hgx | hgt
      · rw [hfx, hgx]
      · exfalso
        apply h.1
        rw [hfx] at hnames
        rw [hnames]
        exact List.mem_map.mpr ⟨g, hgt, rfl⟩
    · rcases List.mem_cons.mp hg with hgx | hgt
      · exfalso
        apply h.1
        rw [hgx] at hnames
        rw [← hnames]
        exact List.mem_map.mpr ⟨f, hft, rfl⟩
      · exact ih h.2 f hft g hgt hnames

theorem lookupByName_self {l : List OwnedField} {f : OwnedField}
    (hnd : (l.map OwnedField.name).Nodup) (hf : f ∈ l) :
    lookupByName l f.name = some f := by
  cases hl : lookupByName l f.name with
  | none =>
    exfalso
    have := (lookupByName_eq_none l f.name).mp hl f hf
    simp at this
  | some g =>
    obtain ⟨hgmem, hgname⟩ := lookupByName_mem hl
    rw [name_nodup_inj hnd g hgmem f hf hgname]

/-- Helper: the differ is reflexive; shared by several claim proofs. -/
theorem diff_new_self (s : OwnedShape) : Diff.new s s = Diff.Equal := by
  unfold Diff.new
  simp only [shapes_equal_refl s, if_true]

theorem diffFromLoop_unchanged (toF : List OwnedField) :
    ∀ (l : List OwnedField), (∀ f ∈ l, lookupByName toF f.name = some f) →
    diffFromLoop toF l = ([], [], l.map OwnedField.name) := by
  intro l
  induction l with
  | nil => intro _; rfl
  | cons x t ih =>
    intro h
    cases x with
    | mk n sh doc =>
      have hx := h (.mk n sh doc) (List.mem_cons_self _ _)
      have hrest := ih (fun f hf => h f (List.mem_cons_of_mem _ hf))
      unfold diffFromLoop
      rw [hrest]
      simp only [OwnedField.name] at hx
      rw [hx]
      simp only [OwnedField.shape, diff_new_self, Diff.is_equal]
      rfl

/-! ### Claim C1 -/

/-- C1 counterexample: permuting the two fields of a record changes no
field name and no field shape, yet the differ does not return Equal (its
structural equality check compares fields positionally), refuting the
claim at this concrete input. -/
theorem c1_permutation_not_equal :
    (Diff.new structAB structBA).is_equal = false := by rfl

/-- C1 (amended): permuting a record's fields without changing names or
shapes yields a diff that reports no field-level changes - either Equal,
or a User diff with empty updates, deletions and insertions (all fields
unchanged) - but not necessarily Equal, because the structural equality
check is positional while the field categorization is name-keyed. -/
theorem c1_permutation_no_field_changes (i : String) (d : OwnedDef)
    (fsa fsb : List OwnedField) (hperm : List.Perm fsb fsa)
    (hnd : (fsa.map OwnedField.name).Nodup) :
    noFieldChanges (Diff.new (OwnedShape.mk i d (.User (.Struct fsa)))
      (OwnedShape.mk i d (.User (.Struct fsb)))) = true := by
  cases he : shapes_equal (OwnedShape.mk i d (.User (.Struct fsa)))
      (OwnedShape.mk i d (.User (.Struct fsb))) with
  | true =>
    unfold Diff.new
    rw [he]
    simp [noFieldChanges]
  | false =>
    have hndb : (fsb.map OwnedField.name).Nodup :=
      ((hperm.map OwnedField.name).nodup_iff).mpr hnd
    have hlook : ∀ f ∈ fsa, lookupByName fsb f.name = some f := by
      intro f hf
      exact lookupByName_self hndb (hperm.mem_iff.mpr hf)
    have hloop := diffFromLoop_unchanged fsb fsa hlook
    have hins : (fsb.filter (fun f => !(fsa.any (fun g => g.name == f.name)))) = [] := by
      rw [List.filter_eq_nil_iff]
      intro f hf
      have hfa : f ∈ fsa := hperm.mem_iff.mp hf
      have hany : fsa.any (fun g => g.name == f.name) = true :=
        List.any_eq_true.mpr ⟨f, hfa, by simp⟩
      simp [hany]
    unfold Diff.new
    rw [he]
    simp only [Bool.false_eq_true, if_false, hloop, hins]
    simp [noFieldChanges]

/-- C1 witness for the amended theorem, at the concrete two-field record
structAB and its permutation structBA. -/
theorem c1_permutation_witness :
    noFieldChanges (Diff.new structAB structBA) = true :=
  c1_permutation_no_field_changes "S" .Undefined [fieldA, fieldB]
    [fieldB, fieldA] (List.Perm.swap fieldA fieldB [])
    (by constructor <;> simp [fieldA, fieldB, OwnedField.name])

mutual

theorem shapes_equal_symm : (a b : OwnedShape) → shapes_equal a b = shapes_equal b a
| .mk i1 d1 t1, .mk i2 d2 t2 => by
  simp only [shapes_equal]
  rw [bne_comm_lawful i1 i2, defs_equal_symm d1 d2, types_equal_symm t1 t2]

theorem defs_equal_symm : (a b : OwnedDef) → defs_equal a b = defs_equal b a
| .Undefined, .Undefined => rfl
| .Undefined, .Scalar => rfl
| .Undefined, .Map bk bv => rfl
| .Undefined, .Set bt => rfl
| .Undefined, .List bt => rfl
| .Undefined, .Array bt bn => rfl
| .Undefined, .Option bt => rfl
| .Scalar, .Undefined => rfl
| .Scalar, .Scalar => rfl
| .Scalar, .Map bk bv => rfl
| .Scalar, .Set bt => rfl
| .Scalar, .List bt => rfl
| .Scalar, .Array bt bn => rfl
| .Scalar, .Option bt => rfl
| .Map ak av, .Undefined => rfl
| .Map ak av, .Scalar => rfl
| .Map ak av, .Map bk bv => by
  simp only [defs_equal]
  rw [shapes_equal_symm ak bk, shapes_equal_symm av bv]
| .Map ak av, .Set bt => rfl
| .Map ak av, .List bt => rfl
| .Map ak av, .Array bt bn => rfl
| .Map ak av, .Option bt => rfl
| .Set aw, .Undefined => rfl
| .Set aw, .Scalar => rfl
| .Set aw, .Map bk bv => rfl
| .Set x, .Set y => by
  simp only [defs_equal]
  rw [shapes_equal_symm x y]
| .Set aw, .List bt => rfl
| .Set aw, .Array bt bn => rfl
| .Set aw, .Option bt => rfl
| .List aw, .Undefined => rfl
| .List aw, .Scalar => rfl
| .List aw, .Map bk bv => rfl
| .List aw, .Set bt => rfl
| .List x, .List y => by
  simp only [defs_equal]
  rw [shapes_equal_symm x y]
| .List aw, .Array bt bn => rfl
| .List aw, .Option bt => rfl
| .Array aw an, .Undefined => rfl
| .Array aw an, .Scalar => rfl
| .Array aw an, .Map bk bv => rfl
| .Array aw an, .Set bt => rfl
| .Array aw an, .List bt => rfl
| .Array xt1 an, .Array yt1 bn => by
  simp only [defs_equal]
  rw [beq_comm_lawful an bn, shapes_equal_symm xt1 yt1]
| .Array aw an, .Option bt => rfl
| .Option aw, .Undefined => rfl
| .Option aw, .Scalar => rfl
| .Option aw, .Map bk bv => rfl
| .Option aw, .Set bt => rfl
| .Option aw, .List bt => rfl
| .Option aw, .Array bt bn => rfl
| .Option x, .Option y => by
  simp only [defs_equal]
  rw [shapes_equal_symm x y]

theorem types_equal_symm : (a b : OwnedType) → types_equal a b = types_equal b a
| .Primitive ap, .Primitive bp => by
  simp only [types_equal]
  rw [beq_comm_lawful (debugPrimitive ap) (debugPrimitive bp)]
| .Primitive ap, .Sequence bs => rfl
| .Primitive ap, .User (.Struct bf) => rfl
| .Primitive ap, .User (.Enum bv) => rfl
| .Primitive ap, .User (.Union bf) => rfl
| .Primitive ap, .User .Opaque => rfl
| .Sequence as, .Primitive bp => rfl
| .Sequence as1, .Sequence bs1 => by
  simp only [types_equal]
  rw [shapes_equal_symm as1 bs1]
| .Sequence as, .User (.Struct bf) => rfl
| .Sequence as, .User (.Enum bv) => rfl
| .Sequence as, .User (.Union bf) => rfl
| .Sequence as, .User .Opaque => rfl
| .User (.Struct af), .Primitive bp => rfl
| .User (.Struct af), .Sequence bs => rfl
| .User (.Struct af), .User (.Struct bf) => by
  simp only [types_equal]
  rw [bne_comm_lawful af.length bf.length, fields_zip_equal_symm af bf]
| .User (.Struct af), .User (.Enum bv) => rfl
| .User (.Struct af), .User (.Union bf) => rfl
| .User (.Struct af), .User .Opaque => rfl
| .User (.Enum av), .Primitive bp => rfl
| .User (.Enum av), .Sequence bs => rfl
| .User (.Enum av), .User (.Struct bf) => rfl
| .User (.Enum av), .User (.Enum bv) => by
  simp only [types_equal]
  rw [bne_comm_lawful av.length bv.length, variants_zip_equal_symm av bv]
| .User (.Enum av), .User (.Union bf) => rfl
| .User (.Enum av), .User .Opaque => rfl
| .User (.Union af), .Primitive bp => rfl
| .User (.Union af), .Sequence bs => rfl
| .User (.Union af), .User (.Struct bf) => rfl
| .User (.Union af), .User (.Enum bv) => rfl
| .User (.Union af), .User (.Union bf) => by
  simp only [types_equal]
  rw [bne_comm_lawful af.length bf.length, fields_zip_equal_symm af bf]
| .User (.Union af), .User .Opaque => rfl
| .User .Opaque, .Primitive bp => rfl
| .User .Opaque, .Sequence bs => rfl
| .User .Opaque, .User (.Struct bf) => rfl
| .User .Opaque, .User (.Enum bv) => rfl
| .User .Opaque, .User (.Union bf) => rfl
| .User .Opaque, .User .Opaque => rfl

theorem fields_zip_equal_symm : (a b : List OwnedField) → fields_zip_equal a b = fields_zip_equal b a
| [], [] => rfl
| [], x :: xs => by simp [fields_zip_equal]
| x :: xs, [] => by simp [fields_zip_equal]
| .mk an ash ad :: as_, .mk bn bsh bd :: bs => by
  simp only [fields_zip_equal]
  rw [beq_comm_lawful an bn, shapes_equal_symm ash bsh, fields_zip_equal_symm as_ bs]

theorem variants_zip_equal_symm : (a b : List OwnedVariant) → variants_zip_equal a b = variants_zip_equal b a
| [], [] => rfl
| [], x :: xs => by simp [variants_zip_equal]
| x :: xs, [] => by simp [variants_zip_equal]
| .mk an ad adoc :: as_, .mk bn bd bdoc :: bs => by
  simp only [variants_zip_equal]
  rw [beq_comm_lawful an bn, beq_comm_lawful ad.length bd.length,
    fields_zip_equal_symm ad bd, variants_zip_equal_symm as_ bs]

end

theorem OwnedField.name_mk (n : String) (s : OwnedShape) (d : List String) :
    (OwnedField.mk n s d).name = n := rfl

theorem diffFromLoop_deletions (toF : List OwnedField) :
    ∀ (l : List OwnedField),
    (diffFromLoop toF l).2.1
      = (l.filter (fun f => !(toF.any (fun g => g.name == f.name)))).map
          (fun f => f.name) := by
  intro l
  induction l with
  | nil => rfl
  | cons x t ih =>
    cases x with
    | mk n sh doc =>
      unfold diffFromLoop
      cases hl : lookupByName toF n with
      | none =>
        have hall := (lookupByName_eq_none toF n).mp hl
        have hany : toF.any (fun g => g.name == n) = false := by
          rw [List.any_eq_false]
          intro g hg
          simp [hall g hg]
        simp [List.filter_cons, OwnedField.name_mk, hany, ih]
      | some tf =>
        obtain ⟨hmem, hname⟩ := lookupByName_mem hl
        have hany : toF.any (fun g => g.name == n) = true :=
          List.any_eq_true.mpr ⟨tf, hmem, by simp [hname]⟩
        cases hd : (Diff.new sh tf.shape).is_equal <;>
          simp [List.filter_cons, OwnedField.name_mk, hany, hd, ih]

theorem diff_new_struct_eq (ia ib : String) (da db : OwnedDef)
    (fsa fsb : List OwnedField)
    (hne : shapes_equal (OwnedShape.mk ia da (.User (.Struct fsa)))
      (OwnedShape.mk ib db (.User (.Struct fsb))) = false) :
    Diff.new (OwnedShape.mk ia da (.User (.Struct fsa)))
        (OwnedShape.mk ib db (.User (.Struct fsb)))
      = Diff.User (OwnedShape.mk ia da (.User (.Struct fsa)))
          (OwnedShape.mk ib db (.User (.Struct fsb)))
          (Value.Struct (diffFromLoop fsb fsa).1 (diffFromLoop fsb fsa).2.1
            ((fsb.filter
              (fun f => !(fsa.any (fun g => g.name == f.name)))).map
              (fun f => f.name))
            (diffFromLoop fsb fsa).2.2) := by
  unfold Diff.new
  rw [hne]
  rfl

/-! ### Claim C10 -/

/-- C10: swap duality of the struct differ; when both shapes are records
and the differ produces a field-level breakdown, the deletions of
diff(a, b) are exactly the insertions of diff(b, a) and vice versa. -/
theorem c10_swap_duality (ia ib : String) (da db : OwnedDef)
    (fsa fsb : List OwnedField)
    (hne : shapes_equal (OwnedShape.mk ia da (.User (.Struct fsa)))
      (OwnedShape.mk ib db (.User (.Struct fsb))) = false) :
    (Diff.new (OwnedShape.mk ia da (.User (.Struct fsa)))
        (OwnedShape.mk ib db (.User (.Struct fsb)))).deletionsOf
      = (Diff.new (OwnedShape.mk ib db (.User (.Struct fsb)))
        (OwnedShape.mk ia da (.User (.Struct fsa)))).insertionsOf
    ∧ (Diff.new (OwnedShape.mk ia da (.User (.Struct fsa)))
        (OwnedShape.mk ib db (.User (.Struct fsb)))).insertionsOf
      = (Diff.new (OwnedShape.mk ib db (.User (.Struct fsb)))
        (OwnedShape.mk ia da (.User (.Struct fsa)))).deletionsOf := by
  have hne2 : shapes_equal (OwnedShape.mk ib db (.User (.Struct fsb)))
      (OwnedShape.mk ia da (.User (.Struct fsa))) = false := by
    rw [shapes_equal_symm]
    exact hne
  rw [diff_new_struct_eq ia ib da db fsa fsb hne,
    diff_new_struct_eq ib ia db da fsb fsa hne2]
  simp only [Diff.deletionsOf, Diff.insertionsOf]
  constructor
  · rw [diffFromLoop_deletions]
  · rw [diffFromLoop_deletions]

/-- C10 witness at two concrete records: fields a, b against fields a, c;
the deleted names of one direction are the inserted names of the other. -/
theorem c10_swap_duality_witness :
    (Diff.new structAB structAC).deletionsOf
      = (Diff.new structAC structAB).insertionsOf
    ∧ (Diff.new structAB structAC).insertionsOf
      = (Diff.new structAC structAB).deletionsOf :=
  c10_swap_duality "S" "S" .Undefined .Undefined [fieldA, fieldB]
    [fieldA, .mk "c" owned_bool []] (by rfl)

theorem OwnedShape.ty_mk (i : String) (d : OwnedDef) (t : OwnedType) :
    (OwnedShape.mk i d t).ty = t := rfl

theorem OwnedShape.type_identifier_mk (i : String) (d : OwnedDef)
    (t : OwnedType) : (OwnedShape.mk i d t).type_identifier = i := rfl

/-! ### Claim C4 -/

/-- C4 counterexample: the column update produced for field p between two
records whose field payloads are themselves records is a nested User
diff; the compatibility check accepts it, although a record-record
combination is not among the claim's compatible combinations (the spec
combination table rejects it). -/
theorem c4_nested_user_update_accepted :
    (Diff.new recordR1 recordR2).updatesOf
        = [("p", Diff.new nestedP1 nestedP2)]
    ∧ (Diff.new nestedP1 nestedP2).is_user = true
    ∧ is_compatible_type_change (Diff.new nestedP1 nestedP2) = true
    ∧ spec_compatible_combination nestedP1 nestedP2 = false := by
  refine ⟨rfl, rfl, rfl, rfl⟩

/-- C4 (amended): the compatibility check applies the kind-combination
rule only to Different field diffs, where it accepts exactly the
combinations the spec lists (Numeric and Textual freely, Opaque with
Numeric only for the String type); every field diff that is not a
Different diff - such as a nested User diff or a Sequence diff - is
accepted by the check unconditionally. -/
theorem c4_compatibility_rule (f t : OwnedShape) (d : Diff) :
    is_compatible_type_change (Diff.Different f t)
        = spec_compatible_combination f t
    ∧ (d.is_different = false → is_compatible_type_change d = true) := by
  constructor
  · cases hf : unwrap_option_type f with
    | mk fi fd fty =>
      cases ht : unwrap_option_type t with
      | mk ti td tty =>
        simp only [is_compatible_type_change, spec_compatible_combination,
          hf, ht]
        cases fty <;> cases tty <;>
          (rename_i fp tp
           cases fp <;> cases tp <;>
             simp [kindIsNumeric, kindIsTextual, kindIsOpaqueString,
               OwnedShape.ty_mk, OwnedShape.type_identifier_mk])
  · intro hd
    cases d <;> simp_all [Diff.is_different, is_compatible_type_change]

/-- C4 witness for the amended theorem, at a concrete Different diff and
a concrete Sequence diff. -/
theorem c4_compatibility_witness :
    is_compatible_type_change (Diff.Different owned_u32 owned_bool)
        = spec_compatible_combination owned_u32 owned_bool
    ∧ is_compatible_type_change (Diff.Sequence owned_u32 owned_bool) = true :=
  ⟨(c4_compatibility_rule owned_u32 owned_bool Diff.Equal).1,
    (c4_compatibility_rule owned_u32 owned_bool
      (Diff.Sequence owned_u32 owned_bool)).2 rfl⟩

theorem processUpdates_ok_all_compatible (fields : List OwnedField) :
    ∀ (ups : List (String × Diff)) (cs : List ColDef),
    processUpdates fields ups = .ok cs →
    ∀ p ∈ ups, is_compatible_type_change p.2 = true := by
  intro ups
  induction ups with
  | nil =>
    intro cs h p hp
    cases hp
  | cons q rest ih =>
    intro cs h p hp
    obtain ⟨n, d⟩ := q
    unfold processUpdates at h
    cases hfind : fields.find? (fun f => f.name == n) with
    | none =>
      rw [hfind] at h
      cases h
    | some f =>
      rw [hfind] at h
      cases hcompat : is_compatible_type_change d with
      | false =>
        rw [hcompat] at h
        cases h
      | true =>
        rcases List.mem_cons.mp hp with hq | hrest
        · rw [hq]
          exact hcompat
        · rw [hcompat] at h
          simp only [Bool.not_true, Bool.false_eq_true, if_false] at h
          cases hm : mkColDef f with
          | error e =>
            rw [hm] at h
            cases h
          | ok c =>
            rw [hm] at h
            cases hr : processUpdates fields rest with
            | error e =>
              rw [hr] at h
              cases h
            | ok cs2 =>
              exact ih cs2 hr p hrest

/-! ### Claim C5 -/

/-- C5: the migration renderer errors on Equal, Different and Sequence
diffs with the corresponding messages; a record-vs-record diff containing
an incompatible field update never yields a statement; a record-vs-record
diff with a single incompatible update errors with the message naming the
offending field; and a record-vs-record diff with no insertions,
deletions or updates fails with the no-column-changes error. Because the
renderer is a function into Except, an error excludes any partial ALTER
statement. -/
theorem c5_migration_render_errors :
    (renderAlter Diff.Equal
      = .error "Cannot create ALTER TABLE from Equal diff - no changes needed")
    ∧ (∀ a b : OwnedShape, renderAlter (Diff.Different a b)
      = .error "Cannot create ALTER TABLE from Different diff - shapes are incompatible")
    ∧ (∀ a b : OwnedShape, renderAlter (Diff.Sequence a b)
      = .error "Cannot create ALTER TABLE from Sequence diff - only struct diffs are supported")
    ∧ (∀ (a b : OwnedShape) (ups : List (String × Diff))
        (dels ins unch : List String),
        (∃ p ∈ ups, is_compatible_type_change p.2 = false) →
        (renderAlter (Diff.User a b (.Struct ups dels ins unch))).isOk = false)
    ∧ (∀ (a : OwnedShape) (ib : String) (db : OwnedDef)
        (bfs : List OwnedField) (unch : List String),
        renderAlter (Diff.User a (OwnedShape.mk ib db (.User (.Struct bfs)))
          (.Struct [] [] [] unch)) = .error "No column changes found")
    ∧ (∀ (a : OwnedShape) (ib : String) (db : OwnedDef)
        (bfs : List OwnedField) (n : String) (d : Diff)
        (dels unch : List String),
        (bfs.find? (fun f => f.name == n)).isSome = true →
        is_compatible_type_change d = false →
        renderAlter (Diff.User a (OwnedShape.mk ib db (.User (.Struct bfs)))
          (.Struct [(n, d)] dels [] unch))
          = .error ("Incompatible type change for field '" ++ n
            ++ "'. Only conversions between numbers and strings are supported")) := by
  refine ⟨rfl, fun a b => rfl, fun a b => rfl, ?_, ?_, ?_⟩
  · intro a b ups dels ins unch ⟨p, hp, hpc⟩
    cases hty : b.ty with
    | User u =>
      cases u with
      | Struct bfs =>
        cases hins : processInserts bfs ins with
        | error e =>
          simp [renderAlter, hty, hins, Bind.bind, Except.bind,
            Except.isOk, Except.toBool]
        | ok adds =>
          cases hups : processUpdates bfs ups with
          | error e =>
            simp [renderAlter, hty, hins, hups, Bind.bind, Except.bind,
              Except.isOk, Except.toBool]
          | ok mods =>
            exfalso
            have hcomp := processUpdates_ok_all_compatible bfs ups mods hups p hp
            rw [hcomp] at hpc
            cases hpc
      | Enum vs => simp [renderAlter, hty, Except.isOk, Except.toBool]
      | Union fs => simp [renderAlter, hty, Except.isOk, Except.toBool]
      | Opaque => simp [renderAlter, hty, Except.isOk, Except.toBool]
    | Primitive p2 => simp [renderAlter, hty, Except.isOk, Except.toBool]
    | Sequence s2 => simp [renderAlter, hty, Except.isOk, Except.toBool]
  · intro a ib db bfs unch
    unfold renderAlter
    simp [processInserts, processUpdates, OwnedShape.ty_mk, Bind.bind,
      Except.bind]
  · intro a ib db bfs n d dels unch hfind hcompat
    obtain ⟨f, hf⟩ := Option.isSome_iff_exists.mp hfind
    unfold renderAlter
    simp [processInserts, processUpdates, OwnedShape.ty_mk, hf, hcompat,
      Bind.bind, Except.bind]

/-- C5 witness: concrete instances of the hypotheses-bearing conjuncts,
with a u32-to-bool field update as the incompatible change. -/
theorem c5_migration_render_witness :
    ((renderAlter (Diff.User recordX32 recordXBool
      (.Struct [("x", Diff.new owned_u32 owned_bool)] [] [] []))).isOk = false)
    ∧ (renderAlter (Diff.User recordX32 recordXBool
      (.Struct [] [] [] ["x"])) = .error "No column changes found")
    ∧ (renderAlter (Diff.User recordX32 recordXBool
      (.Struct [("x", Diff.new owned_u32 owned_bool)] [] [] []))
        = .error ("Incompatible type change for field '" ++ "x"
          ++ "'. Only conversions between numbers and strings are supported")) :=
  ⟨(c5_migration_render_errors.2.2.2.1) recordX32 recordXBool
      [("x", Diff.new owned_u32 owned_bool)] [] [] []
      ⟨("x", Diff.new owned_u32 owned_bool), by simp, by rfl⟩,
    (c5_migration_render_errors.2.2.2.2.1) recordX32 "R" .Undefined
      [.mk "x" owned_bool []] ["x"],
    (c5_migration_render_errors.2.2.2.2.2) recordX32 "R" .Undefined
      [.mk "x" owned_bool []] "x" (Diff.new owned_u32 owned_bool) [] []
      (by rfl) (by rfl)⟩

theorem shape_to_data_type_unfold (s : FShape) :
    shape_to_data_type s =
      (match get_option_inner_type s with
       | some inner =>
         if is_option_type s then
           (match shape_to_data_type inner with
            | .ok (t, _) => .ok (t, true)
            | .error e => .error e)
         else shapeToDataTypeBase s
       | none => shapeToDataTypeBase s) := by
  cases s with
  | mk tid lay d ty tps inn =>
    cases tps with
    | cons p rest => simp [shape_to_data_type, get_option_inner_type]
    | nil =>
      cases ty with
      | User u =>
        cases u with
        | Enum e =>
          cases e with
          | mk vars =>
            cases vars with
            | nil => simp [shape_to_data_type, get_option_inner_type]
            | cons v vrest =>
              cases v with
              | mk vn vdata =>
                cases vdata with
                | mk kind vfields =>
                  cases kind with
                  | Tuple =>
                    cases vfields with
                    | nil => simp [shape_to_data_type, get_option_inner_type]
                    | cons f frest =>
                      cases f with
                      | mk fn fsh fattrs => simp [shape_to_data_type, get_option_inner_type]
                  | Struct => simp [shape_to_data_type, get_option_inner_type]
                  | TupleStruct => simp [shape_to_data_type, get_option_inner_type]
                  | Unit => simp [shape_to_data_type, get_option_inner_type]
        | Struct st => simp [shape_to_data_type, get_option_inner_type]
        | Union fs => simp [shape_to_data_type, get_option_inner_type]
        | Opaque => simp [shape_to_data_type, get_option_inner_type]
      | Primitive p => simp [shape_to_data_type, get_option_inner_type]
      | Sequence t => simp [shape_to_data_type, get_option_inner_type]
      | Pointer => simp [shape_to_data_type, get_option_inner_type]

theorem shapeToDataTypeBase_nullable (s : FShape) (t : DataType) (b : Bool)
    (h : shapeToDataTypeBase s = .ok (t, b)) : b = false := by
  cases hty : s.ty with
  | Primitive p =>
    cases hp : primitive_to_data_type p s with
    | ok t2 => simp_all [shapeToDataTypeBase]
    | error e => simp_all [shapeToDataTypeBase]
  | User u =>
    cases hu : user_type_to_data_type u s with
    | ok t2 => simp_all [shapeToDataTypeBase]
    | error e => simp_all [shapeToDataTypeBase]
  | Pointer =>
    simp only [shapeToDataTypeBase, hty] at h
    cases hi : s.inner with
    | some i =>
      rw [hi] at h
      by_cases hc : strContains i.type_identifier "str" = true
      · simp [hc] at h
        exact h.2
      · simp only [hc, Bool.false_eq_true, if_false] at h
        unfold pointerFallback at h
        by_cases hc2 : strContains s.type_identifier "str" = true
        · simp [hc2] at h
          exact h.2
        · simp [hc2] at h
    | none =>
      rw [hi] at h
      unfold pointerFallback at h
      by_cases hc2 : strContains s.type_identifier "str" = true
      · simp [hc2] at h
        exact h.2
      · simp [hc2] at h
  | Sequence t2 => simp_all [shapeToDataTypeBase]

/-! ### Claim C7 -/

/-- C7 counterexample: a field whose shape is an enum named MyOption with
a tuple first variant is compiled into a nullable column although its def
is not Option, refuting the Def-keyed reading of nullability. -/
theorem c7_non_option_def_nullable :
    exceptNullable (field_to_column facet_weirdField) = some true
    ∧ FDef.isOption facet_weirdField.shape.definition = false :=
  ⟨rfl, rfl⟩

/-- C7 (amended): option detection in field compilation is keyed on the
type identifier, not the def; a successfully compiled column is nullable
exactly when the field shape's identifier contains Option and an inner
shape is extractable, in which case the inner shape determines the SQL
data type; when no inner shape is extractable (in particular for every
shape whose identifier does not contain Option, whatever its def), the
column is non-nullable. -/
theorem c7_option_unwrap_nullability (f : FField) (col : Column)
    (h : field_to_column f = .ok col) :
    ((is_option_type f.shape = false ∨ get_option_inner_type f.shape = none) →
      col.nullable = false)
    ∧ (∀ i : FShape, is_option_type f.shape = true →
        get_option_inner_type f.shape = some i →
        col.nullable = true
          ∧ exceptDataType (shape_to_data_type i) = some col.data_type) := by
  unfold field_to_column at h
  cases hs : shape_to_data_type f.shape with
  | error e =>
    rw [hs] at h
    cases h
  | ok pr =>
    obtain ⟨dt, nb⟩ := pr
    rw [hs] at h
    injection h with h2
    subst h2
    rw [shape_to_data_type_unfold] at hs
    constructor
    · intro hnone
      cases hg : get_option_inner_type f.shape with
      | none =>
        rw [hg] at hs
        exact shapeToDataTypeBase_nullable _ _ _ hs
      | some i =>
        rcases hnone with hopt | hinner
        · rw [hg, hopt] at hs
          simp only [Bool.false_eq_true, if_false] at hs
          exact shapeToDataTypeBase_nullable _ _ _ hs
        · rw [hinner] at hg
          cases hg
    · intro i hopt hinner
      rw [hinner, hopt] at hs
      simp only [if_true] at hs
      cases hr : shape_to_data_type i with
      | error e =>
        rw [hr] at hs
        cases hs
      | ok pr2 =>
        obtain ⟨t2, b2⟩ := pr2
        rw [hr] at hs
        injection hs with hs2
        injection hs2 with hdt hnb
        constructor
        · exact hnb.symm
        · rw [exceptDataType, hdt]

/-- C7 witness for the amended theorem: the real Option of u32 gives a
nullable column whose data type comes from the inner u32 shape. -/
theorem c7_option_unwrap_witness :
    expectedOptCol.nullable = true
    ∧ exceptDataType (shape_to_data_type facet_u32)
        = some expectedOptCol.data_type :=
  (c7_option_unwrap_nullability facet_optField expectedOptCol rfl).2
    facet_u32 rfl rfl

theorem field_to_column_name (f : FField) (c : Column)
    (h : field_to_column f = .ok c) : c.name = f.name := by
  unfold field_to_column at h
  cases hs : shape_to_data_type f.shape with
  | error e =>
    rw [hs] at h
    cases h
  | ok pr =>
    obtain ⟨dt, nb⟩ := pr
    rw [hs] at h
    injection h with h2
    rw [← h2]

theorem mapM_field_names : ∀ (fl : List FField) (cols : List Column),
    fl.mapM field_to_column = .ok cols →
    cols.map (fun c => c.name) = fl.map (fun f => f.name) := by
  intro fl
  induction fl with
  | nil =>
    intro cols h
    simp only [List.mapM_nil, pure, Except.pure] at h
    injection h with h1
    rw [← h1]
    rfl
  | cons f rest ih =>
    intro cols h
    rw [List.mapM_cons] at h
    cases hf : field_to_column f with
    | error e =>
      rw [hf] at h
      simp [Bind.bind, Except.bind] at h
    | ok c =>
      rw [hf] at h
      simp only [Bind.bind, Except.bind] at h
      cases hr : rest.mapM field_to_column with
      | error e =>
        rw [hr] at h
        cases h
      | ok cs2 =>
        rw [hr] at h
        simp only [pure, Except.pure] at h
        injection h with h1
        rw [← h1]
        simp [field_to_column_name f c hf, ih cs2 hr]

theorem process_fields_names (fl : List FField) (tn : String)
    (cols : List Column) (pk : Option PrimaryKey)
    (h : process_fields fl tn = .ok (cols, pk)) :
    cols.map (fun c => c.name) = fl.map (fun f => f.name) := by
  unfold process_fields at h
  cases hm : fl.mapM field_to_column with
  | error e =>
    rw [hm] at h
    cases h
  | ok cols2 =>
    rw [hm] at h
    dsimp only at h
    split at h
    · cases h
    · split at h <;>
        (injection h with h1
         have hc : cols = cols2 := by
           have := congrArg Prod.fst h1
           simpa using this.symm
         rw [hc]
         exact mapM_field_names fl cols2 hm)

theorem enumVariantLoop_spec (base : String) :
    ∀ (vs : List FVariant) (ts : List Table) (cs : List Column)
      (fs : List ForeignKey),
    enumVariantLoop base vs = .ok (ts, cs, fs) →
    (ts.map (fun t => t.name)
        = (vs.filter (fun v => isNonUnitKind v.data.kind)).map
            (fun v => base ++ "_" ++ strToLower v.name))
    ∧ (cs.map (fun c => (c.name, c.data_type, c.nullable, c.is_identity))
        = (vs.filter (fun v => isNonUnitKind v.data.kind)).map
            (fun v => (strToLower v.name ++ "_id", DataType.BigInt, true, false)))
    ∧ fs.length = (vs.filter (fun v => isNonUnitKind v.data.kind)).length
    ∧ (∀ t ∈ ts, t.primary_key = some (primaryKeyOn ["id"])
        ∧ t.columns.head? = some enumIdColumn)
    ∧ List.Forall₂ (fun (t : Table) (v : FVariant) =>
        t.columns.map (fun c => c.name)
          = "id" :: v.data.fields.map (fun f => f.name))
        ts (vs.filter (fun v => isNonUnitKind v.data.kind)) := by
  intro vs
  induction vs with
  | nil =>
    intro ts cs fs h
    simp only [enumVariantLoop] at h
    injection h with h1
    have hts : ts = [] := (congrArg Prod.fst h1).symm
    have hcs : cs = [] := (congrArg (fun p => p.2.1) h1).symm
    have hfs : fs = [] := (congrArg (fun p => p.2.2) h1).symm
    subst hts hcs hfs
    simp
  | cons v rest ih =>
    intro ts cs fs h
    unfold enumVariantLoop at h
    cases hk : isNonUnitKind v.data.kind with
    | false =>
      rw [hk] at h
      simp only [Bool.false_eq_true, if_false] at h
      have := ih ts cs fs h
      simpa [List.filter_cons, hk] using this
    | true =>
      rw [hk] at h
      simp only [if_true] at h
      cases hp : process_fields v.data.fields (base ++ "_" ++ strToLower v.name) with
      | error e =>
        rw [hp] at h
        cases h
      | ok pr =>
        obtain ⟨fcols, pk⟩ := pr
        rw [hp] at h
        cases hr : enumVariantLoop base rest with
        | error e =>
          rw [hr] at h
          cases h
        | ok tr =>
          obtain ⟨ts2, cs2, fs2⟩ := tr
          rw [hr] at h
          injection h with h1
          have hts : ts = _ :: ts2 := (congrArg Prod.fst h1).symm
          have hcs : cs = _ :: cs2 := (congrArg (fun p => p.2.1) h1).symm
          have hfs : fs = _ :: fs2 := (congrArg (fun p => p.2.2) h1).symm
          subst hts hcs hfs
          obtain ⟨ihn, ihc, ihf, ihpk, ihfa⟩ := ih ts2 cs2 fs2 hr
          refine ⟨?_, ?_, ?_, ?_, ?_⟩
          · simp [List.filter_cons, hk, ihn]
          · simp [List.filter_cons, hk, ihc]
          · simp [List.filter_cons, hk, ihf]
          · intro t ht
            rcases List.mem_cons.mp ht with hh | hmem
            · rw [hh]
              exact ⟨rfl, rfl⟩
            · exact ihpk t hmem
          · simp only [List.filter_cons, hk, if_true]
            refine List.Forall₂.cons ?_ ihfa
            simp [process_fields_names _ _ _ _ hp, enumIdColumn]
/-! ### Claim C2 -/

/-- C2: compiling an enum with K non-unit variants yields exactly K+1
tables; the main table (pushed last) has columns id (non-null identity
BigSerial), discriminant (non-null Integer) and one nullable BigInt
foreign-key column per non-unit variant in declaration order, with K
foreign keys; each non-unit variant yields a table named type_variant
with an identity id primary-key column followed by one column per
variant field; unit variants contribute no table and no column. -/
theorem c2_enum_schema (s : FShape) (e : FEnumType) (ps : PartialSchema)
    (h : enum_to_partial_schema s e = .ok ps) :
    ps.tables.length
        = (e.variants.filter (fun v => isNonUnitKind v.data.kind)).length + 1
    ∧ (ps.tables.getLast?).map (fun t => t.columns.map
          (fun c => (c.name, c.data_type, c.nullable, c.is_identity)))
        = some (("id", DataType.BigSerial, false, true)
            :: ("discriminant", DataType.Integer, false, false)
            :: (e.variants.filter (fun v => isNonUnitKind v.data.kind)).map
                (fun v => (strToLower v.name ++ "_id", DataType.BigInt, true, false)))
    ∧ (ps.tables.getLast?).map (fun t => t.foreign_keys.length)
        = some (e.variants.filter (fun v => isNonUnitKind v.data.kind)).length
    ∧ (ps.tables.take
          (e.variants.filter (fun v => isNonUnitKind v.data.kind)).length).map
          (fun t => t.name)
        = (e.variants.filter (fun v => isNonUnitKind v.data.kind)).map
            (fun v => strToLower s.type_identifier ++ "_" ++ strToLower v.name)
    ∧ (∀ t ∈ ps.tables.take
          (e.variants.filter (fun v => isNonUnitKind v.data.kind)).length,
        t.primary_key = some (primaryKeyOn ["id"])
          ∧ t.columns.head? = some enumIdColumn)
    ∧ List.Forall₂ (fun (t : Table) (v : FVariant) =>
        t.columns.map (fun c => c.name)
          = "id" :: v.data.fields.map (fun f => f.name))
        (ps.tables.take
          (e.variants.filter (fun v => isNonUnitKind v.data.kind)).length)
        (e.variants.filter (fun v => isNonUnitKind v.data.kind)) := by
  unfold enum_to_partial_schema at h
  dsimp only at h
  cases hl : enumVariantLoop (strToLower s.type_identifier) e.variants with
  | error err =>
    rw [hl] at h
    cases h
  | ok tr =>
    obtain ⟨vts, fkcols, fks⟩ := tr
    rw [hl] at h
    dsimp only at h
    injection h with h1
    subst h1
    obtain ⟨ln, lc, lf, lpk, lfa⟩ :=
      enumVariantLoop_spec (strToLower s.type_identifier) e.variants vts fkcols fks hl
    have hlen : vts.length
        = (e.variants.filter (fun v => isNonUnitKind v.data.kind)).length := by
      have := congrArg List.length ln
      simpa using this
    have htake : ∀ (m : Table), (vts ++ [m]).take
        (e.variants.filter (fun v => isNonUnitKind v.data.kind)).length = vts := by
      intro m
      rw [← hlen]
      exact List.take_left vts [m]
    refine ⟨?_, ?_, ?_, ?_, ?_, ?_⟩
    · simp [hlen]
    · rw [List.getLast?_concat]
      simp [enumIdColumn, discriminantColumn, lc]
    · rw [List.getLast?_concat]
      simp [lf]
    · rw [htake]
      exact ln
    · intro t ht
      rw [htake] at ht
      exact lpk t ht
    · rw [htake]
      exact lfa

/-- C2 witness at the three-variant enum with non-unit A (1 field),
non-unit B (2 fields) and unit C: exactly 3 tables and 2 foreign keys,
main columns id, discriminant, a_id, b_id with the claimed types. -/
theorem c2_enum_schema_witness :
    exEnumPs.tables.length = 3
    ∧ (exEnumPs.tables.getLast?).map (fun t => t.columns.map
          (fun c => (c.name, c.data_type, c.nullable, c.is_identity)))
        = some [("id", DataType.BigSerial, false, true),
            ("discriminant", DataType.Integer, false, false),
            ("a_id", DataType.BigInt, true, false),
            ("b_id", DataType.BigInt, true, false)]
    ∧ (exEnumPs.tables.getLast?).map (fun t => t.foreign_keys.length) = some 2 :=
  ⟨(c2_enum_schema exEnumShape exEnum exEnumPs rfl).1.trans (by rfl),
    (c2_enum_schema exEnumShape exEnum exEnumPs rfl).2.1.trans (by rfl),
    (c2_enum_schema exEnumShape exEnum exEnumPs rfl).2.2.1.trans (by rfl)⟩

/-! ### Claim C3 -/

/-- C3: the main table of a compiled enum carries exactly one CHECK
constraint, named variant_integrity, whose expression is the AND-join of
the lockstep clause of every non-unit variant at its declaration index,
and the literal 1=1 when there is no non-unit variant. -/
theorem c3_variant_integrity_check (s : FShape) (e : FEnumType)
    (ps : PartialSchema) (h : enum_to_partial_schema s e = .ok ps) :
    (ps.tables.getLast?).map (fun t => t.checks)
      = some [CheckConstraint.mk (some "variant_integrity")
          (if ((e.variants.enum.filter
              (fun p => isNonUnitKind p.2.data.kind)).map
              (fun p => variantCheckClause p.1 (strToLower p.2.name))).isEmpty
           then "1=1"
           else String.intercalate " AND "
             ((e.variants.enum.filter
               (fun p => isNonUnitKind p.2.data.kind)).map
               (fun p => variantCheckClause p.1 (strToLower p.2.name)))) false] := by
  unfold enum_to_partial_schema at h
  dsimp only at h
  cases hl : enumVariantLoop (strToLower s.type_identifier) e.variants with
  | error err =>
    rw [hl] at h
    cases h
  | ok tr =>
    obtain ⟨vts, fkcols, fks⟩ := tr
    rw [hl] at h
    dsimp only at h
    injection h with h1
    subst h1
    rw [List.getLast?_concat]
    simp [variantIntegrityCheck, enumCheckParts]

/-- C3 witness at the three-variant enum: the single check constraint is
the AND of the clauses for A at index 0 and B at index 1. -/
theorem c3_variant_integrity_witness :
    (exEnumPs.tables.getLast?).map (fun t => t.checks)
      = some [CheckConstraint.mk (some "variant_integrity")
          ("(CASE WHEN discriminant = 0 THEN a_id IS NOT NULL ELSE a_id IS NULL END) AND (CASE WHEN discriminant = 1 THEN b_id IS NOT NULL ELSE b_id IS NULL END)")
          false] := by
  exact (c3_variant_integrity_check exEnumShape exEnum exEnumPs rfl).trans
    (by rfl)

/-! ### Claim C8 -/

/-- C8: the rendered statement list is exactly the non-foreign-key
passes followed by the foreign-key pass; every CREATE TABLE statement
lies in the non-foreign-key prefix and the suffix consists exactly of the
foreign-key ALTER statements of every table, so every foreign-key
statement appears after every CREATE TABLE statement regardless of the
order of tables in the input schema. -/
theorem c8_fk_statements_last (s : PartialSchema) (nm : String) :
    toDdlStmts s nm = ddlNonFkStmts s nm ++ ddlFkStmts s nm
    ∧ (∀ t ∈ s.tables, createTableStmt nm t ∈ ddlNonFkStmts s nm)
    ∧ ddlFkStmts s nm = (s.tables.map (tableFkStmts nm)).flatten
    ∧ (∀ (j : Nat) (x : String), (ddlFkStmts s nm)[j]? = some x →
        (toDdlStmts s nm)[(ddlNonFkStmts s nm).length + j]? = some x) := by
  refine ⟨rfl, ?_, rfl, ?_⟩
  · intro t ht
    unfold ddlNonFkStmts
    apply List.mem_cons_of_mem
    have h1 : createTableStmt nm t ∈ tableStmtsFor nm t :=
      List.mem_cons_self _ _
    have h2 : tableStmtsFor nm t ∈ s.tables.map (tableStmtsFor nm) :=
      List.mem_map_of_mem _ ht
    have h3 : createTableStmt nm t ∈ (s.tables.map (tableStmtsFor nm)).flatten :=
      List.mem_flatten.mpr ⟨_, h2, h1⟩
    simp only [List.mem_append]
    tauto
  · intro j x hj
    show (ddlNonFkStmts s nm ++ ddlFkStmts s nm)[(ddlNonFkStmts s nm).length + j]?
      = some x
    rw [List.getElem?_append_right (by omega)]
    simpa using hj

/-- C8 witness: in a schema listing table a (with a foreign key to b)
before table b, both CREATE TABLE statements are in the prefix and the
first statement of the foreign-key suffix is a's foreign-key ALTER. -/
theorem c8_fk_statements_last_witness :
    createTableStmt "public" exTableA ∈ ddlNonFkStmts exFkSchema "public"
    ∧ createTableStmt "public" exTableB ∈ ddlNonFkStmts exFkSchema "public"
    ∧ (toDdlStmts exFkSchema "public")[(ddlNonFkStmts exFkSchema "public").length + 0]?
      = some "ALTER TABLE public.a ADD CONSTRAINT a_b_id_fkey FOREIGN KEY (b_id) REFERENCES b (id);" :=
  ⟨(c8_fk_statements_last exFkSchema "public").2.1 exTableA
      (List.mem_cons_self _ _),
    (c8_fk_statements_last exFkSchema "public").2.1 exTableB
      (List.mem_cons_of_mem _ (List.mem_cons_self _ _)),
    (c8_fk_statements_last exFkSchema "public").2.2.2 0 _ (by rfl)⟩

/-! ### Claim C9 -/

/-- C9: DDL rendering is deterministic; to_ddl is a pure function of the
schema and the schema name, so rendering equal inputs twice yields
byte-identical output. -/
theorem c9_ddl_deterministic (s1 s2 : PartialSchema) (n1 n2 : String)
    (hs : s1 = s2) (hn : n1 = n2) : to_ddl s1 n1 = to_ddl s2 n2 := by
  rw [hs, hn]

/-- C9 witness: rendering the concrete two-table schema twice yields the
same text. -/
theorem c9_ddl_deterministic_witness :
    to_ddl exFkSchema "public" = to_ddl exFkSchema "public" :=
  c9_ddl_deterministic exFkSchema exFkSchema "public" "public" rfl rfl

end FacetOwnedShape
